import Mathlib

/-!
Verification of the mav-agent mission planning core.

Shallow embedding of the Python sources under `src/`:
Python floats are modelled as rationals, Python `int(x)` as truncation
toward zero, Python object references (MissionItem objects aliased between a
mission item list and a saved snapshot) as indices into an explicit heap.
Modules that the repository imports but whose sources are not present
(`core/units.py`, `core/manager.py`, `core/validator.py`) are modelled from
the specification; each such definition carries a doc comment starting with
`Modelled from the spec:`.
-/

deriving instance DecidableEq for Except

namespace MavAgent

/-- Python value stored in `MissionItem.heading`: the dataclass declares the
field as `Optional[str]`, but `mission_item_from_mavlink` assigns the numeric
`param4` to it, so at runtime it holds either a string or a number. -/
inductive HeadingVal
  | s (v : String)
  | n (v : ℚ)
deriving DecidableEq

/-- Embedding of `MissionItem` from `src/core/mission.py` (dataclass fields in
source order; Python floats as rationals). -/
structure MissionItem where
  seq : Int
  frame : Int := 0
  command : Int := 0
  current : Int := 0
  command_type : Option String := none
  latitude : Option ℚ := none
  longitude : Option ℚ := none
  mgrs : Option String := none
  distance : Option ℚ := none
  heading : Option HeadingVal := none
  altitude : Option ℚ := none
  radius : Option ℚ := none
  altitude_units : Option String := none
  distance_units : Option String := none
  radius_units : Option String := none
  relative_reference_frame : Option String := none
  search_target : Option String := none
  detection_behavior : Option String := none
deriving DecidableEq

/-- Stand-in default object used only for out-of-range heap reads, which do not
occur in the Python executions being modelled. -/
def defaultItem : MissionItem := { seq := 0 }

instance : Inhabited MissionItem := ⟨defaultItem⟩

/-- Embedding of a CPython `datetime.datetime` value (naive, no tzinfo), as
used by `Mission.created_at` and `Mission.modified_at`. -/
structure PyDateTime where
  year : Nat
  month : Nat
  day : Nat
  hour : Nat
  minute : Nat
  second : Nat
  microsecond : Nat
deriving DecidableEq

/-- Embedding of `Mission` from `src/core/mission.py`. The
`default_factory=datetime.now` clock is passed explicitly wherever a new
`Mission()` is constructed. -/
structure Mission where
  items : List MissionItem := []
  created_at : PyDateTime
  modified_at : PyDateTime
deriving DecidableEq

/-! ISO-8601 timestamp codec.

`Mission.to_dict` serializes timestamps with `datetime.isoformat()` and
`Mission.from_dict` parses them with `datetime.fromisoformat()`.  These two
CPython library functions are modelled here on strings represented as their
codepoint sequences (`List Nat`): `isoformat` emits
`YYYY-MM-DDTHH:MM:SS` plus `.ffffff` exactly when the microsecond field is
nonzero, and `fromisoformat` reads the fixed-width fields back.  The model is
used on the image of `isoformat`; CPython raises on malformed input, which the
repository never feeds it on the to_dict/from_dict path. -/

/-- Base-10 digits of `n`, left-padded with zeros to width `w`,
most significant first. -/
def padDigits : Nat → Nat → List Nat
  | 0, _ => []
  | w + 1, n => padDigits w (n / 10) ++ [n % 10]

/-- Codepoints of the zero-padded decimal rendering of `n` (width `w`). -/
def digitChars (w n : Nat) : List Nat :=
  (padDigits w n).map (fun d => 48 + d)

/-- Accumulate a decimal number from codepoints. -/
def foldDigits (l : List Nat) : Nat :=
  l.foldl (fun a c => a * 10 + (c - 48)) 0

/-- Read the decimal number of width `w` starting at position `pos`. -/
def readNat (s : List Nat) (pos w : Nat) : Nat :=
  foldDigits ((s.drop pos).take w)

/-- Model of CPython `datetime.isoformat()` (default separator `T`,
fractional part omitted when `microsecond == 0`). -/
def isoformat (d : PyDateTime) : List Nat :=
  digitChars 4 d.year ++ [45] ++ digitChars 2 d.month ++ [45] ++ digitChars 2 d.day ++
  [84] ++ digitChars 2 d.hour ++ [58] ++ digitChars 2 d.minute ++ [58] ++ digitChars 2 d.second ++
  (if d.microsecond = 0 then [] else [46] ++ digitChars 6 d.microsecond)

/-- Model of CPython `datetime.fromisoformat()` restricted to the fixed-width
layout that `isoformat` produces. -/
def fromisoformat (s : List Nat) : PyDateTime :=
  { year := readNat s 0 4
    month := readNat s 5 2
    day := readNat s 8 2
    hour := readNat s 11 2
    minute := readNat s 14 2
    second := readNat s 17 2
    microsecond := if s.length ≤ 19 then 0 else readNat s 20 6 }

/-- Digit-width bounds under which the fixed-width ISO rendering is faithful;
CPython datetime enforces strictly tighter ranges on every field. -/
def PyDateTime.InRange (d : PyDateTime) : Prop :=
  d.year < 10000 ∧ d.month < 100 ∧ d.day < 100 ∧ d.hour < 100 ∧
  d.minute < 100 ∧ d.second < 100 ∧ d.microsecond < 1000000

instance (d : PyDateTime) : Decidable d.InRange := by
  unfold PyDateTime.InRange; infer_instance

theorem length_padDigits (w n : Nat) : (padDigits w n).length = w := by
  induction w generalizing n with
  | zero => rfl
  | succ w ih => simp [padDigits, ih]

theorem length_digitChars (w n : Nat) : (digitChars w n).length = w := by
  simp [digitChars, length_padDigits]

theorem foldDigits_append_one (l : List Nat) (c : Nat) :
    foldDigits (l ++ [c]) = foldDigits l * 10 + (c - 48) := by
  simp [foldDigits]

theorem foldDigits_digitChars (w n : Nat) (h : n < 10 ^ w) :
    foldDigits (digitChars w n) = n := by
  induction w generalizing n with
  | zero =>
    interval_cases n
    rfl
  | succ w ih =>
    have hdiv : n / 10 < 10 ^ w := by
      rw [Nat.div_lt_iff_lt_mul (by norm_num)]
      calc n < 10 ^ (w + 1) := h
        _ = 10 ^ w * 10 := by ring
    have : digitChars (w + 1) n = digitChars w (n / 10) ++ [48 + n % 10] := by
      simp [digitChars, padDigits]
    rw [this, foldDigits_append_one, ih _ hdiv]
    omega

theorem readNat_at (pre mid post : List Nat) (p w : Nat)
    (h1 : pre.length = p) (h2 : mid.length = w) :
    readNat (pre ++ (mid ++ post)) p w = foldDigits mid := by
  subst h1 h2
  simp [readNat, List.drop_left, List.take_left]

theorem length_isoformat (d : PyDateTime) :
    (isoformat d).length = if d.microsecond = 0 then 19 else 26 := by
  by_cases h : d.microsecond = 0 <;>
    simp [isoformat, h, length_digitChars]

/-- `datetime.fromisoformat` inverts `datetime.isoformat` on field values within
digit-width range (CPython datetimes always are). -/
theorem fromisoformat_isoformat (d : PyDateTime) (h : d.InRange) :
    fromisoformat (isoformat d) = d := by
  obtain ⟨y, mo, dd, hh, mi, ss, us⟩ := d
  obtain ⟨hy, hmo, hdd, hhh, hmi, hss, hus⟩ := h
  have ry : readNat (isoformat ⟨y, mo, dd, hh, mi, ss, us⟩) 0 4 = foldDigits (digitChars 4 y) := by
    have hsplit : isoformat ⟨y, mo, dd, hh, mi, ss, us⟩ =
        ([] : List Nat) ++ (digitChars 4 y ++ ([45] ++ (digitChars 2 mo ++ ([45] ++
          (digitChars 2 dd ++ ([84] ++ (digitChars 2 hh ++ ([58] ++ (digitChars 2 mi ++
          ([58] ++ (digitChars 2 ss ++
          (if us = 0 then [] else [46] ++ digitChars 6 us)))))))))))) := by
      simp [isoformat, List.append_assoc]
    rw [hsplit, readNat_at] <;> simp [length_digitChars]
  have rmo : readNat (isoformat ⟨y, mo, dd, hh, mi, ss, us⟩) 5 2 = foldDigits (digitChars 2 mo) := by
    have hsplit : isoformat ⟨y, mo, dd, hh, mi, ss, us⟩ =
        (digitChars 4 y ++ [45]) ++ (digitChars 2 mo ++ ([45] ++
          (digitChars 2 dd ++ ([84] ++ (digitChars 2 hh ++ ([58] ++ (digitChars 2 mi ++
          ([58] ++ (digitChars 2 ss ++
          (if us = 0 then [] else [46] ++ digitChars 6 us)))))))))) := by
      simp [isoformat, List.append_assoc]
    rw [hsplit, readNat_at] <;> simp [length_digitChars]
  have rdd : readNat (isoformat ⟨y, mo, dd, hh, mi, ss, us⟩) 8 2 = foldDigits (digitChars 2 dd) := by
    have hsplit : isoformat ⟨y, mo, dd, hh, mi, ss, us⟩ =
        (digitChars 4 y ++ [45] ++ digitChars 2 mo ++ [45]) ++ (digitChars 2 dd ++ ([84] ++
          (digitChars 2 hh ++ ([58] ++ (digitChars 2 mi ++ ([58] ++ (digitChars 2 ss ++
          (if us = 0 then [] else [46] ++ digitChars 6 us)))))))) := by
      simp [isoformat, List.append_assoc]
    rw [hsplit, readNat_at] <;> simp [length_digitChars]
  have rhh : readNat (isoformat ⟨y, mo, dd, hh, mi, ss, us⟩) 11 2 = foldDigits (digitChars 2 hh) := by
    have hsplit : isoformat ⟨y, mo, dd, hh, mi, ss, us⟩ =
        (digitChars 4 y ++ [45] ++ digitChars 2 mo ++ [45] ++ digitChars 2 dd ++ [84]) ++
          (digitChars 2 hh ++ ([58] ++ (digitChars 2 mi ++ ([58] ++ (digitChars 2 ss ++
          (if us = 0 then [] else [46] ++ digitChars 6 us)))))) := by
      simp [isoformat, List.append_assoc]
    rw [hsplit, readNat_at] <;> simp [length_digitChars]
  have rmi : readNat (isoformat ⟨y, mo, dd, hh, mi, ss, us⟩) 14 2 = foldDigits (digitChars 2 mi) := by
    have hsplit : isoformat ⟨y, mo, dd, hh, mi, ss, us⟩ =
        (digitChars 4 y ++ [45] ++ digitChars 2 mo ++ [45] ++ digitChars 2 dd ++ [84] ++
          digitChars 2 hh ++ [58]) ++ (digitChars 2 mi ++ ([58] ++ (digitChars 2 ss ++
          (if us = 0 then [] else [46] ++ digitChars 6 us)))) := by
      simp [isoformat, List.append_assoc]
    rw [hsplit, readNat_at] <;> simp [length_digitChars]
  have rss : readNat (isoformat ⟨y, mo, dd, hh, mi, ss, us⟩) 17 2 = foldDigits (digitChars 2 ss) := by
    have hsplit : isoformat ⟨y, mo, dd, hh, mi, ss, us⟩ =
        (digitChars 4 y ++ [45] ++ digitChars 2 mo ++ [45] ++ digitChars 2 dd ++ [84] ++
          digitChars 2 hh ++ [58] ++ digitChars 2 mi ++ [58]) ++ (digitChars 2 ss ++
          (if us = 0 then [] else [46] ++ digitChars 6 us)) := by
      simp [isoformat, List.append_assoc]
    rw [hsplit, readNat_at] <;> simp [length_digitChars]
  by_cases h0 : us = 0
  · simp only [fromisoformat, ry, rmo, rdd, rhh, rmi, rss, length_isoformat]
    rw [foldDigits_digitChars 4 y (by norm_num at hy ⊢; omega),
        foldDigits_digitChars 2 mo (by norm_num at hmo ⊢; omega),
        foldDigits_digitChars 2 dd (by norm_num at hdd ⊢; omega),
        foldDigits_digitChars 2 hh (by norm_num at hhh ⊢; omega),
        foldDigits_digitChars 2 mi (by norm_num at hmi ⊢; omega),
        foldDigits_digitChars 2 ss (by norm_num at hss ⊢; omega)]
    simp [h0]
  · have rus : readNat (isoformat ⟨y, mo, dd, hh, mi, ss, us⟩) 20 6 = foldDigits (digitChars 6 us) := by
      have hsplit : isoformat ⟨y, mo, dd, hh, mi, ss, us⟩ =
          (digitChars 4 y ++ [45] ++ digitChars 2 mo ++ [45] ++ digitChars 2 dd ++ [84] ++
            digitChars 2 hh ++ [58] ++ digitChars 2 mi ++ [58] ++ digitChars 2 ss ++ [46]) ++
            (digitChars 6 us ++ []) := by
        simp [isoformat, List.append_assoc, h0]
      rw [hsplit, readNat_at] <;> simp [length_digitChars]
    simp only [fromisoformat, ry, rmo, rdd, rhh, rmi, rss, rus, length_isoformat]
    rw [foldDigits_digitChars 4 y (by norm_num at hy ⊢; omega),
        foldDigits_digitChars 2 mo (by norm_num at hmo ⊢; omega),
        foldDigits_digitChars 2 dd (by norm_num at hdd ⊢; omega),
        foldDigits_digitChars 2 hh (by norm_num at hhh ⊢; omega),
        foldDigits_digitChars 2 mi (by norm_num at hmi ⊢; omega),
        foldDigits_digitChars 2 ss (by norm_num at hss ⊢; omega),
        foldDigits_digitChars 6 us (by norm_num at hus ⊢; omega)]
    simp [h0]

/-! Dictionary snapshot layer (`to_dict`/`from_dict` in `src/core/mission.py`).
The Python string-keyed dict is modelled as a record with one field per key;
`MissionItem.to_dict` emits every key, so on the round-trip path every
`data.get(key, default)` in `from_dict` finds its key present. -/

/-- The dict produced by `MissionItem.to_dict`. -/
structure ItemDict where
  seq : Int
  frame : Int
  command : Int
  current : Int
  command_type : Option String
  latitude : Option ℚ
  longitude : Option ℚ
  mgrs : Option String
  distance : Option ℚ
  heading : Option HeadingVal
  altitude : Option ℚ
  radius : Option ℚ
  altitude_units : Option String
  distance_units : Option String
  radius_units : Option String
  relative_reference_frame : Option String
  search_target : Option String
  detection_behavior : Option String
deriving DecidableEq

/-- `MissionItem.to_dict` from `src/core/mission.py`. -/
def MissionItem.to_dict (i : MissionItem) : ItemDict :=
  ⟨i.seq, i.frame, i.command, i.current, i.command_type, i.latitude, i.longitude,
   i.mgrs, i.distance, i.heading, i.altitude, i.radius, i.altitude_units,
   i.distance_units, i.radius_units, i.relative_reference_frame,
   i.search_target, i.detection_behavior⟩

/-- `MissionItem.from_dict` from `src/core/mission.py`. -/
def MissionItem.from_dict (d : ItemDict) : MissionItem :=
  ⟨d.seq, d.frame, d.command, d.current, d.command_type, d.latitude, d.longitude,
   d.mgrs, d.distance, d.heading, d.altitude, d.radius, d.altitude_units,
   d.distance_units, d.radius_units, d.relative_reference_frame,
   d.search_target, d.detection_behavior⟩

theorem from_dict_to_dict (i : MissionItem) :
    MissionItem.from_dict (MissionItem.to_dict i) = i := rfl

/-- The dict produced by `Mission.to_dict`. -/
structure MissionDict where
  items : List ItemDict
  created_at : List Nat
  modified_at : List Nat
deriving DecidableEq

/-- `Mission.to_dict` from `src/core/mission.py` (the `convert_to_absolute`
flag is kept for API compatibility and has no effect in the source). -/
def Mission.to_dict (m : Mission) : MissionDict :=
  ⟨m.items.map MissionItem.to_dict, isoformat m.created_at, isoformat m.modified_at⟩

/-- `Mission.from_dict` from `src/core/mission.py`. -/
def Mission.from_dict (d : MissionDict) : Mission :=
  ⟨d.items.map MissionItem.from_dict, fromisoformat d.created_at, fromisoformat d.modified_at⟩

/-! Wire format codec (`src/core/mavlink_format.py`). -/

/-- Python `int(x)` on a float: truncation toward zero
(truncated division of numerator by denominator). -/
def pyInt (q : ℚ) : Int :=
  q.num.tdiv q.den

/-- Python `x or d` for an optional number: `None` and `0` are falsy. -/
def pyOrQ (o : Option ℚ) (d : ℚ) : ℚ :=
  match o with
  | none => d
  | some v => if v = 0 then d else v

/-- Python `s or d` for an optional string: `None` and `""` are falsy. -/
def pyOrStr (o : Option String) (d : String) : String :=
  match o with
  | none => d
  | some s => if s = "" then d else s

/-- Python `item.heading or 0` (an empty string and `0` are falsy and yield
the integer `0`). -/
def pyOrHeading (o : Option HeadingVal) : HeadingVal :=
  match o with
  | none => .n 0
  | some (.s t) => if t = "" then .n 0 else .s t
  | some (.n v) => if v = 0 then .n 0 else .n v

/-- `COMMAND_TYPE_TO_MAVLINK` in source order (note `waypoint` and `survey`
both map to code 16). -/
def COMMAND_TYPE_TO_MAVLINK : List (String × Int) :=
  [("takeoff", 22), ("waypoint", 16), ("loiter", 17), ("rtl", 20),
   ("land", 21), ("survey", 16)]

/-- One assignment step of a Python dict: overwrite the key if present,
append otherwise. -/
def dictAssign (m : List (Int × String)) (k : Int) (v : String) : List (Int × String) :=
  if m.any (fun p => p.1 = k) then
    m.map (fun p => if p.1 = k then (k, v) else p)
  else m ++ [(k, v)]

/-- `MAVLINK_TO_COMMAND_TYPE = {v: k for k, v in COMMAND_TYPE_TO_MAVLINK.items()}`:
a dict comprehension in insertion order, so a later pair with the same value
overwrites an earlier one (code 16 ends up mapped to `survey`). -/
def MAVLINK_TO_COMMAND_TYPE : List (Int × String) :=
  COMMAND_TYPE_TO_MAVLINK.foldl (fun m kv => dictAssign m kv.2 kv.1) []

/-- `COMMAND_TYPE_TO_MAVLINK.get(ct, MAV_CMD_NAV_WAYPOINT)`; a `None` key is
absent from the dict and takes the default. -/
def commandCodeOf (ct : Option String) : Int :=
  match ct with
  | none => 16
  | some s => (COMMAND_TYPE_TO_MAVLINK.lookup s).getD 16

/-- `MAVLINK_TO_COMMAND_TYPE.get(command, 'waypoint')`. -/
def commandTypeOf (code : Int) : String :=
  (MAVLINK_TO_COMMAND_TYPE.lookup code).getD "waypoint"

/-- Modelled from the spec: `convert_to_meters` lives in `core/units.py`,
which is imported by the codec and the tools but is not present under `src/`.
Per §4.1 it is a deterministic linear conversion over the unit vocabulary
feet/meters/miles/kilometers, and an unknown unit treats the value as already
meters. -/
def convert_to_meters (value : ℚ) (units : String) : ℚ :=
  if units = "feet" then value * (3048 / 10000)
  else if units = "meters" then value
  else if units = "miles" then value * (1609344 / 1000)
  else if units = "kilometers" then value * 1000
  else value

/-- The MAVLink MISSION_ITEM_INT dict produced by `mission_item_to_mavlink`. -/
structure MavItemDict where
  seq : Int
  frame : Int
  command : Int
  current : Int
  autocontinue : Int
  param1 : ℚ
  param2 : ℚ
  param3 : ℚ
  param4 : ℚ
  x : Int
  y : Int
  z : ℚ
deriving DecidableEq

/-- `mission_item_to_mavlink` from `src/core/mavlink_format.py`. -/
def mission_item_to_mavlink (item : MissionItem) : MavItemDict :=
  let command := commandCodeOf item.command_type
  let x := pyInt (pyOrQ item.latitude 0 * 10 ^ 7)
  let y := pyInt (pyOrQ item.longitude 0 * 10 ^ 7)
  let z := convert_to_meters (pyOrQ item.altitude 0) (pyOrStr item.altitude_units "feet")
  let frame : Int := 6
  let params : ℚ × ℚ × ℚ × ℚ :=
    if item.command_type = some "takeoff" then
      let param4 : ℚ :=
        match pyOrHeading item.heading with
        | .s _ => 0
        | .n v => v
      (0, 0, 0, param4)
    else if item.command_type = some "loiter" then
      let param3 := convert_to_meters (pyOrQ item.radius 0) (pyOrStr item.radius_units "feet")
      (0, 0, param3, 0)
    else if item.command_type = some "waypoint" ∨ item.command_type = some "survey" then
      let param4 : ℚ :=
        match pyOrHeading item.heading with
        | .s _ => 0
        | .n v => v
      (0, 2, 0, param4)
    else (0, 0, 0, 0)
  ⟨item.seq, frame, command, item.current, 1,
   params.1, params.2.1, params.2.2.1, params.2.2.2, x, y, z⟩

/-- `mission_item_from_mavlink` from `src/core/mavlink_format.py`. -/
def mission_item_from_mavlink (mav : MavItemDict) : MissionItem :=
  let command := mav.command
  let command_type := commandTypeOf command
  let base : MissionItem :=
    { seq := mav.seq, frame := mav.frame, command := command, current := mav.current,
      command_type := some command_type,
      latitude := some ((mav.x : ℚ) / 10 ^ 7),
      longitude := some ((mav.y : ℚ) / 10 ^ 7),
      altitude := some mav.z,
      altitude_units := some "meters" }
  if command_type = "takeoff" then
    { base with heading := some (.n mav.param4) }
  else if command_type = "loiter" then
    { base with radius := some mav.param3, radius_units := some "meters" }
  else if command_type = "waypoint" ∨ command_type = "survey" then
    { base with heading := some (.n mav.param4) }
  else base

/-- `mission_to_mavlink` from `src/core/mavlink_format.py`
(invoked by `Mission.to_mavlink`). -/
def mission_to_mavlink (m : Mission) : List MavItemDict :=
  m.items.map mission_item_to_mavlink

/-- `mission_from_mavlink` from `src/core/mavlink_format.py` (invoked by
`Mission.from_mavlink`); the `datetime.now()` clock of the fresh `Mission()`
is passed explicitly. -/
def mission_from_mavlink (now : PyDateTime) (l : List MavItemDict) : Mission :=
  ⟨l.map mission_item_from_mavlink, now, now⟩

/-! Unit and coordinate resolver, modelled from §4.1 of the specification
(`core/units.py` is imported by the tools but absent from `src/`). -/

/-- Rational stand-in for the double approximation of pi. -/
def ratPi : ℚ := 3141592653589793 / 10 ^ 15

/-- Rational stand-in for the double approximation of sqrt(1/2). -/
def sqrtHalf : ℚ := 7071067811865476 / 10 ^ 16

/-- Character-wise ASCII lowercasing (the case-insensitivity of the heading
vocabulary per §4.1), defined structurally over the codepoints. -/
def lowerAscii (s : String) : String := ⟨s.data.map Char.toLower⟩

/-- Modelled from the spec: compass-direction vocabulary of
`calculate_absolute_coordinates` (§4.1: cardinal and intercardinal text,
case-insensitive); returns (north component, east component). -/
def headingVector (h : String) : Option (ℚ × ℚ) :=
  let t := lowerAscii h
  if t = "north" then some (1, 0)
  else if t = "south" then some (-1, 0)
  else if t = "east" then some (0, 1)
  else if t = "west" then some (0, -1)
  else if t = "northeast" then some (sqrtHalf, sqrtHalf)
  else if t = "northwest" then some (sqrtHalf, -sqrtHalf)
  else if t = "southeast" then some (-sqrtHalf, sqrtHalf)
  else if t = "southwest" then some (-sqrtHalf, -sqrtHalf)
  else none

/-- Meters per degree of latitude (pi times earth radius over 180), the scale
of the equirectangular approximation. -/
def metersPerDegree : ℚ := 6371000 * ratPi / 180

/-- Degree-argument cosine by truncated Taylor series, standing in for the
float cosine of the equirectangular formula. -/
def cosDeg (deg : ℚ) : ℚ :=
  let x := deg * ratPi / 180
  1 - x ^ 2 / 2 + x ^ 4 / 24 - x ^ 6 / 720

/-- Modelled from the spec: `calculate_absolute_coordinates` from
`core/units.py` (§4.1) — resolves compass text plus a distance into a
destination point with an equirectangular approximation; unrecognized heading

text is a resolution failure (a Python exception, modelled as `Except.error`,
which `move_item` catches). -/
def calculate_absolute_coordinates (ref_lat ref_lon dist : ℚ)
    (heading units : String) : Except String (ℚ × ℚ) :=
  match headingVector heading with
  | none => .error ("Unrecognized heading: " ++ heading)
  | some (dn, de) =>
    let dm := convert_to_meters dist units
    .ok (ref_lat + dm * dn / metersPerDegree,
         ref_lon + dm * de / (metersPerDegree * cosDeg ref_lat))

/-! Mission validator and manager, modelled from §4.2 and §4.3
(`core/validator.py` and `core/manager.py` are absent from `src/`). -/

/-- Command types that require a position (takeoff, waypoint, loiter, survey;
rtl and land fly to computed points and carry no required position). -/
def requiresPosition (ct : Option String) : Bool :=
  ct = some "takeoff" || ct = some "waypoint" || ct = some "loiter" || ct = some "survey"

/-- Modelled from the spec: `MissionManager.validate_mission` delegating to
the Validator (§4.2), in the configuration the tool handlers run it in —
`home_position` not supplied, structural auto-fix and auto-add toggles off,
and bounds satisfied — so rule 4 applies: every item requiring position must
have resolvable absolute coordinates by validation time; a violation is a
hard error naming the item. -/
def specValidate (items : List MissionItem) : Bool × List String :=
  let errs := items.filterMap (fun i =>
    if requiresPosition i.command_type && !(i.latitude.isSome && i.longitude.isSome) then
      some ("Item " ++ toString i.seq ++ " requires absolute coordinates")
    else none)
  (errs.isEmpty, errs)

/-- Modelled from the spec: `MissionManager.get_mission_state_summary` (§4.3),
a concise deterministic listing of (seq, type) pairs. -/
def specSummary (items : List MissionItem) : String :=
  "\nCurrent mission state: " ++ String.intercalate "; "
    (items.map (fun i => toString i.seq ++ ":" ++ i.command_type.getD "none"))

/-- `MAVLinkToolBase._validate_mission_after_action` from `src/tools/tools.py`,
parameterized by the manager delegate `validate`; the tool call sites always
have a live mission, so the `not mission` early exit is not modelled. -/
def validateAfterAction (validate : List MissionItem → Bool × List String)
    (items : List MissionItem) : Bool × String :=
  let r := validate items
  if !r.1 then (false, r.2.headD "Mission validation failed")
  else
    let fixes := r.2.filter (fun msg => msg.startsWith "Auto-fix:")
    if !fixes.isEmpty then (true, String.intercalate ". " fixes)
    else (true, "")

/-! Object heap. Python MissionItem objects are mutable and aliased: the
snapshot in `MAVLinkToolBase._save_mission_state` is `[item for item in
mission.items]` — a new list holding the same objects.  Items therefore live
in an explicit heap (`ItemHeap`), and a mission item list is a list of heap
indices; in-place field assignment mutates the heap cell, visible through
every alias. -/

abbrev ItemHeap := List MissionItem

/-- Dereference an item object. -/
def heapGet (h : ItemHeap) (r : Nat) : MissionItem := h.getD r defaultItem

/-- In-place mutation of an item object. -/
def heapSet (h : ItemHeap) (r : Nat) (i : MissionItem) : ItemHeap := h.set r i

/-- The field-wise value of a mission item list (what "structurally and
field-wise identical" compares). -/
def missionValue (h : ItemHeap) (refs : List Nat) : List MissionItem :=
  refs.map (heapGet h)

/-- `unpack_measurement` from `src/tools/tools.py` with the default units
`'meters'` used at the `move_item` call site; the pydantic validator delivers
either `None` or a `(value, units)` tuple. -/
def unpack_measurement (v : Option (ℚ × String)) : Option ℚ × String :=
  match v with
  | some (x, u) => (some x, u)
  | none => (none, "meters")

/-- `unpack_coordinates` from `src/tools/tools.py`. -/
def unpack_coordinates (v : Option (ℚ × ℚ)) : Option ℚ × Option ℚ :=
  match v with
  | some (a, b) => (some a, some b)
  | none => (none, none)

/-- Stand-in for Python numeric string interpolation (`{value}`, `{v:.6f}`);
no claim depends on the exact digits rendered. -/
def fmtQ (q : ℚ) : String := toString q.num ++ "/" ++ toString q.den

/-- Python `f"{command_type}"` where the value may be `None`. -/
def pyStrOpt (o : Option String) : String :=
  match o with
  | none => "None"
  | some s => s

/-- `command_type in ['waypoint', 'loiter', 'survey']` (move_item line 70). -/
def cmdSupportsPosition (ct : Option String) : Bool :=
  ct = some "waypoint" || ct = some "loiter" || ct = some "survey"

/-- `command_type in ['takeoff', 'waypoint', 'loiter', 'survey']`
(move_item line 71). -/
def cmdSupportsHeading (ct : Option String) : Bool :=
  ct = some "takeoff" || ct = some "waypoint" || ct = some "loiter" || ct = some "survey"

/-- `get_origin_coordinates` closure inside `MoveItemTool._run`: first takeoff
item with both coordinates, scanning the live (possibly part-mutated)
mission. -/
def get_origin_coordinates (h : ItemHeap) (refs : List Nat) : Option (ℚ × ℚ) :=
  (missionValue h refs).findSome? (fun mi =>
    match mi.command_type, mi.latitude, mi.longitude with
    | some t, some la, some lo => if t = "takeoff" then some (la, lo) else none
    | _, _, _ => none)

/-- Loop of `MoveItemTool._find_last_waypoint_coordinates`: checks indices
`n-1, n-2, ..., 0`. -/
def findLastWaypointAux (h : ItemHeap) (refs : List Nat) : Nat → Option (ℚ × ℚ)
  | 0 => none
  | n + 1 =>
    let mi := heapGet h (refs.getD n 0)
    if mi.command_type = some "waypoint" || mi.command_type = some "takeoff" ||
       mi.command_type = some "loiter" || mi.command_type = some "survey" then
      match mi.latitude, mi.longitude with
      | some la, some lo => some (la, lo)
      | _, _ => findLastWaypointAux h refs n
    else findLastWaypointAux h refs n

/-- `MoveItemTool._find_last_waypoint_coordinates(mission, current_index)`:
scan backward from `current_index - 1` for the nearest prior waypoint,
takeoff, loiter or survey item with resolved coordinates. -/
def find_last_waypoint_coordinates (h : ItemHeap) (refs : List Nat)
    (current_index : Nat) : Option (ℚ × ℚ) :=
  findLastWaypointAux h refs current_index

/-- `relative_reference_frame or "origin"`, with `'self'` rendered as
`"current location"` (move_item line 161). -/
def refDescOf (frame : Option String) : String :=
  if frame = some "self" then "current location" else pyOrStr frame "origin"

/-- The in-place field assignments of the GPS-coordinates branch
(move_item lines 76-82). -/
def coordsMutation (it : MissionItem) (la lo : ℚ) : MissionItem :=
  { it with latitude := some la, longitude := some lo, distance := none,
            heading := none, mgrs := none, relative_reference_frame := none }

/-- The in-place field assignments of the MGRS branch (move_item
lines 90-96). -/
def mgrsMutation (it : MissionItem) (g : String) : MissionItem :=
  { it with mgrs := some g, latitude := none, longitude := none, distance := none,
            heading := none, relative_reference_frame := none }

/-- The in-place field assignments of the relative-positioning branch
(move_item lines 150-158). -/
def relativeMutation (it : MissionItem) (nl nlo : ℚ) : MissionItem :=
  { it with latitude := some nl, longitude := some nlo, mgrs := none,
            distance := none, heading := none, distance_units := none,
            relative_reference_frame := none }

/-- The in-place field assignment of the heading-only branch (move_item
line 172). -/
def headingMutation (it : MissionItem) (hd : String) : MissionItem :=
  { it with heading := some (.s hd) }

/-- GPS-coordinates branch of `MoveItemTool._run` (lines 74-85): set
latitude/longitude and clear the relative and MGRS representations.
`Sum.inl` is an early `return` carrying the heap at that moment. -/
def moveStepCoords (heap : ItemHeap) (tgt : Nat) (seq : Int) (ct : Option String)
    (latitude longitude : Option ℚ) : (String × ItemHeap) ⊕ (ItemHeap × List String) :=
  match latitude, longitude with
  | some la, some lo =>
    if cmdSupportsPosition ct then
      let it := heapGet heap tgt
      .inr (heapSet heap tgt (coordsMutation it la lo),
            ["position to lat/long (" ++ fmtQ la ++ ", " ++ fmtQ lo ++ ")"])
    else
      .inl ("Error: Cannot modify GPS coordinates on item " ++ toString seq ++ " - " ++
            pyStrOpt ct ++ " commands don\x27t support positioning", heap)
  | _, _ => .inr (heap, [])

/-- MGRS branch of `MoveItemTool._run` (lines 88-99): set `mgrs` and clear all
other positioning fields (note: the MGRS string is stored, not resolved). -/
def moveStepMgrs (heap : ItemHeap) (tgt : Nat) (seq : Int) (ct : Option String)
    (mgrs : Option String) : (String × ItemHeap) ⊕ (ItemHeap × List String) :=
  match mgrs with
  | some g =>
    if cmdSupportsPosition ct then
      let it := heapGet heap tgt
      .inr (heapSet heap tgt (mgrsMutation it g),
            ["position to MGRS " ++ g])
    else
      .inl ("Error: Cannot modify MGRS coordinates on item " ++ toString seq ++ " - " ++
            pyStrOpt ct ++ " commands don\x27t support positioning", heap)
  | none => .inr (heap, [])

/-- Reference-frame resolution inside the relative-positioning branch
(move_item lines 118-142): `self` reads the item object (a missing
coordinate flows into the calculation as `None` and raises, caught by the
inner `except`); `origin` and the default use the first takeoff;
`last_waypoint` scans backward and falls back to the origin. -/
def resolveReference (heap : ItemHeap) (refs : List Nat) (tgt : Nat) (seq : Int)
    (frame : Option String) : String ⊕ (ℚ × ℚ) :=
  if frame = some "self" then
    let it := heapGet heap tgt
    match it.latitude, it.longitude with
    | some a, some b => .inr (a, b)
    | _, _ =>
      .inl "Error: Failed to calculate new position - unsupported operand type for NoneType"
  else if frame = some "origin" then
    match get_origin_coordinates heap refs with
    | some ab => .inr ab
    | none =>
      .inl "Error: Cannot use \x27origin\x27 reference - no takeoff item with coordinates found in mission."
  else if frame = some "last_waypoint" then
    match find_last_waypoint_coordinates heap refs (seq - 1).toNat with
    | some ab => .inr ab
    | none =>
      match get_origin_coordinates heap refs with
      | some ab => .inr ab
      | none =>
        .inl "Error: Cannot find reference point - no last waypoint and no takeoff item with coordinates found."
  else
    match get_origin_coordinates heap refs with
    | some ab => .inr ab
    | none =>
      .inl "Error: Cannot determine origin - no takeoff item with coordinates found in mission."

/-- Relative-positioning branch of `MoveItemTool._run` (lines 102-167):
resolve the reference frame, call `calculate_absolute_coordinates`, store the
absolute result and clear every other positioning attribute.  The plain
`return` statements for missing references and the inner `except` around the
calculation are the `Sum.inl` cases. -/
def moveStepRelative (calcAbs : ℚ → ℚ → ℚ → String → String → Except String (ℚ × ℚ))
    (heap : ItemHeap) (refs : List Nat) (tgt : Nat) (seq : Int) (ct : Option String)
    (distance_value : Option ℚ) (distance_units : String)
    (heading frame : Option String) : (String × ItemHeap) ⊕ (ItemHeap × List String) :=
  match distance_value, heading with
  | some dv, some hd =>
    if cmdSupportsPosition ct then
      match resolveReference heap refs tgt seq frame with
      | .inl msg => .inl (msg, heap)
      | .inr (ra, rb) =>
        match calcAbs ra rb dv hd distance_units with
        | .error e => .inl ("Error: Failed to calculate new position - " ++ e, heap)
        | .ok (nl, nlo) =>
          let it := heapGet heap tgt
          let units_text := if distance_units = "" then "" else " " ++ distance_units
          .inr (heapSet heap tgt (relativeMutation it nl nlo),
                ["position to " ++ fmtQ dv ++ units_text ++ " " ++ hd ++ " from " ++
                 refDescOf frame ++ " (new coordinates: " ++ fmtQ nl ++ ", " ++ fmtQ nlo ++ ")"])
    else
      .inl ("Error: Cannot modify position on item " ++ toString seq ++ " - " ++
            pyStrOpt ct ++ " commands don\x27t support positioning", heap)
  | _, _ => .inr (heap, [])

/-- Heading-only branch of `MoveItemTool._run` (lines 170-175), taken when a
heading is supplied without the raw `distance` parameter. -/
def moveStepHeadingOnly (heap : ItemHeap) (tgt : Nat) (seq : Int) (ct : Option String)
    (heading : Option String) (distance : Option (ℚ × String)) :
    (String × ItemHeap) ⊕ (ItemHeap × List String) :=
  match heading, distance with
  | some hd, none =>
    if cmdSupportsHeading ct then
      let it := heapGet heap tgt
      .inr (heapSet heap tgt (headingMutation it hd), ["heading to " ++ hd])
    else
      .inl ("Error: Cannot modify heading on item " ++ toString seq ++ " - " ++
            pyStrOpt ct ++ " commands don\x27t support heading", heap)
  | _, _ => .inr (heap, [])

/-- The fixed no-geometry-given return string of `MoveItemTool._run`. -/
def noChangesMsg : String :=
  "No position changes specified - provide GPS coordinates (lat/long), MGRS, or relative positioning (distance/heading) to move the item"

/-- `MoveItemTool._run` from `src/tools/move_item_tool.py`, parameterized by
the missing manager delegates (`validate` for `validate_mission`, `summary`
for `get_mission_state_summary`) and the missing resolver (`calcAbs` for
`calculate_absolute_coordinates`).  Returns the response string plus the
resulting heap and mission item-reference list.  A missing mission and an
empty item list produce the same response with no state change, so both are
modelled by `refs = []`.  The snapshot `saved` is a copy of the *reference*
list (`[item for item in mission.items]`), and `_restore_mission_state`
replaces the list contents with exactly those references. -/
def moveItemRun (validate : List MissionItem → Bool × List String)
    (summary : List MissionItem → String)
    (calcAbs : ℚ → ℚ → ℚ → String → String → Except String (ℚ × ℚ))
    (heap : ItemHeap) (refs : List Nat) (seq : Int)
    (coordinates : Option (ℚ × ℚ)) (mgrs : Option String)
    (distance : Option (ℚ × String)) (heading : Option String)
    (frame : Option String) : String × ItemHeap × List Nat :=
  let dm := unpack_measurement distance
  let co := unpack_coordinates coordinates
  if refs.isEmpty then ("Error: No mission items to move", heap, refs)
  else
    let saved := refs
    if seq < 1 || (refs.length : Int) ≤ seq - 1 then
      ("Error: Invalid sequence number " ++ toString seq ++ ". Mission has " ++
       toString refs.length ++ " items (1 to " ++ toString refs.length ++ ")", heap, refs)
    else
      let tgt := refs.getD (seq - 1).toNat 0
      let ct := (heapGet heap tgt).command_type
      match moveStepCoords heap tgt seq ct co.1 co.2 with
      | .inl (msg, h) => (msg, h, refs)
      | .inr (h1, c1) =>
        match moveStepMgrs h1 tgt seq ct mgrs with
        | .inl (msg, h) => (msg, h, refs)
        | .inr (h2, c2) =>
          match moveStepRelative calcAbs h2 refs tgt seq ct dm.1 dm.2 heading frame with
          | .inl (msg, h) => (msg, h, refs)
          | .inr (h3, c3) =>
            match moveStepHeadingOnly h3 tgt seq ct heading distance with
            | .inl (msg, h) => (msg, h, refs)
            | .inr (h4, c4) =>
              let changes := c1 ++ c2 ++ c3 ++ c4
              if changes.isEmpty then (noChangesMsg, h4, refs)
              else
                let v := validateAfterAction validate (missionValue h4 refs)
                if !v.1 then
                  ("Planning Error: " ++ v.2 ++ summary (missionValue h4 saved), h4, saved)
                else
                  ("Moved mission item " ++ toString seq ++ ": " ++
                   String.intercalate ", " (c1 ++ c2 ++ c3 ++ c4) ++
                   summary (missionValue h4 refs), h4, refs)

/-- Modelled from the spec: `MissionManager.add_return_to_launch` (§4.3,
`core/manager.py` absent from `src/`) — appends a fresh item object with the
next contiguous seq and the given altitude, performing no validation, and
returns the committed item. -/
def add_return_to_launch (h : ItemHeap) (refs : List Nat)
    (altitude : Option ℚ) (altitude_units : String) : ItemHeap × List Nat × MissionItem :=
  let it : MissionItem :=
    { defaultItem with seq := refs.length, command_type := some "rtl",
                       altitude := altitude, altitude_units := some altitude_units }
  (h ++ [it], refs ++ [h.length], it)

/-- `AddRTLTool._run` from `src/tools/add_rtl_tool.py`, parameterized like
`moveItemRun`; the spec-modelled `add_return_to_launch` raises on no
contract violation here, so the outer `except` path is unreachable. -/
def addRTLRun (validate : List MissionItem → Bool × List String)
    (summary : List MissionItem → String)
    (heap : ItemHeap) (refs : List Nat)
    (altitude : Option (ℚ × String)) : String × ItemHeap × List Nat :=
  let am := unpack_measurement altitude
  let saved := refs
  let added := add_return_to_launch heap refs am.1 am.2
  let h1 := added.1
  let refs1 := added.2.1
  let item := added.2.2
  let v := validateAfterAction validate (missionValue h1 refs1)
  if !v.1 then
    ("Planning Error: " ++ v.2 ++ summary (missionValue h1 saved), h1, saved)
  else
    let altitude_msg :=
      match am.1 with
      | some av => " at " ++ fmtQ av ++ " " ++ am.2
      | none => ""
    let response := "Return to Launch command added to mission" ++ altitude_msg ++
                    " (Item " ++ toString (item.seq + 1) ++ ")"
    let response := if v.2 = "" then response else response ++ ". " ++ v.2
    (response ++ summary (missionValue h1 refs1), h1, refs1)

/-! Agent boundary layer (`src/core/agent.py`).  Mission objects are also
mutable Python objects aliased by reference (`plan` saves
`self.mission_manager.get_mission()` — the object reference, not a copy), so
missions live in their own heap of item-reference lists.  The LangGraph agent
run inside `mission_mode`/`command_mode` is external LLM-driven code; its
effect on the session is the sequence of tool invocations it performs, which
is the run parameter of the embedding.  Console printing and the returned
result dictionaries are value-level and not part of the session state the
claims are about. -/

/-- A Python `Mission` object as held by the manager: its (mutable) list of
item references. -/
structure MissionObj where
  items : List Nat
deriving DecidableEq

/-- Session state of `MAVLinkAgent` as observed by `plan`: the two object
heaps, the manager reference `current_mission`, `chat_history` (messages as
opaque strings) and `current_mode`. -/
structure AgentState where
  itemHeap : ItemHeap
  missionHeap : List MissionObj
  currentMission : Option Nat
  chatHistory : List String
  currentMode : Option String
deriving DecidableEq

/-- One tool invocation performed during an agent run. -/
inductive ToolCall
  | moveItem (seq : Int) (coordinates : Option (ℚ × ℚ)) (mgrs : Option String)
      (distance : Option (ℚ × String)) (heading : Option String)
      (frame : Option String)
  | addRtl (altitude : Option (ℚ × String))

/-- Execute one tool call against the live mission: the tool reads
`mission_manager.get_mission()`, mutates item objects in place and replaces
the mission object's item list. With no live mission the handlers return an
error string and change nothing. -/
def applyTool (st : AgentState) (tc : ToolCall) : AgentState :=
  match st.currentMission with
  | none => st
  | some mref =>
    let mo := st.missionHeap.getD mref ⟨[]⟩
    match tc with
    | .moveItem seq co mg di hd fr =>
      let r := moveItemRun specValidate specSummary calculate_absolute_coordinates
                 st.itemHeap mo.items seq co mg di hd fr
      { st with itemHeap := r.2.1, missionHeap := st.missionHeap.set mref ⟨r.2.2⟩ }
    | .addRtl alt =>
      let r := addRTLRun specValidate specSummary st.itemHeap mo.items alt
      { st with itemHeap := r.2.1, missionHeap := st.missionHeap.set mref ⟨r.2.2⟩ }

/-- The state effect of the LangGraph agent run: the tool calls it performs,
in order. -/
def runAgent (st : AgentState) (run : List ToolCall) : AgentState :=
  run.foldl applyTool st

/-- State effects of `MAVLinkAgent.mission_mode`: switch tools/manager when
not already in mission mode, reset chat and create a fresh mission when none
exists (injecting the system prompt), run the agent, extend the chat history
with the new messages. -/
def mission_mode (run : List ToolCall) (st : AgentState) : AgentState :=
  let st1 :=
    if st.currentMode ≠ some "mission" then
      { st with currentMode := some "mission", currentMission := none }
    else st
  let st2 :=
    if st1.currentMission = none then
      { st1 with chatHistory := ["system"],
                 missionHeap := st1.missionHeap ++ [⟨[]⟩],
                 currentMission := some st1.missionHeap.length }
    else st1
  let st3 := runAgent st2 run
  { st3 with chatHistory := st3.chatHistory ++ ["assistant"] }

/-- State effects of `MAVLinkAgent.command_mode`: always rebuild the
tools/manager, clear the chat, create a fresh mission, run the agent, then
clear chat and mission again for the next command. -/
def command_mode (run : List ToolCall) (st : AgentState) : AgentState :=
  let st1 := { st with currentMode := some "command", currentMission := none }
  let st2 := { st1 with chatHistory := [],
                        missionHeap := st1.missionHeap ++ [⟨[]⟩],
                        currentMission := some st1.missionHeap.length }
  let st3 := runAgent st2 run
  { st3 with chatHistory := [], currentMission := none }

/-- `MAVLinkAgent.plan` from `src/core/agent.py` (state effects): save
`original_mission` (the object reference), a copy of the chat history and the
mode; optionally load `mission_state` through `Mission.from_dict` (fresh item
and mission objects); route to the mode handler (an invalid mode raises
`ValueError`, and the `finally` block restores before the exception
propagates); finally re-assign the saved mission reference, chat history and
mode. -/
def plan (run : List ToolCall) (st : AgentState) (mode : String)
    (mission_state : Option MissionDict) : AgentState :=
  let original_mission := st.currentMission
  let original_history := st.chatHistory
  let original_mode := st.currentMode
  let st1 :=
    match mission_state with
    | some md =>
      let loadedItems := md.items.map MissionItem.from_dict
      let newRefs := (List.range loadedItems.length).map (fun i => st.itemHeap.length + i)
      { st with itemHeap := st.itemHeap ++ loadedItems,
                missionHeap := st.missionHeap ++ [⟨newRefs⟩],
                currentMission := some st.missionHeap.length }
    | none => st
  let st2 :=
    if mode = "mission" then mission_mode run st1
    else if mode = "command" then command_mode run st1
    else st1
  { st2 with currentMission := original_mission,
             chatHistory := original_history,
             currentMode := original_mode }

/-- The field-wise value of the Mission Manager live mission. -/
def liveMission (st : AgentState) : Option (List MissionItem) :=
  st.currentMission.map (fun r => missionValue st.itemHeap (st.missionHeap.getD r ⟨[]⟩).items)

/-! String classification predicates used to state the response-string
claims, defined on codepoint data. -/

/-- `s` begins with `t`. -/
def strHasPre (t s : String) : Prop :=
  s.data.take t.data.length = t.data

/-- `s` ends with `t`. -/
def strHasSuf (t s : String) : Prop :=
  s.data.drop (s.data.length - t.data.length) = t.data

instance (t s : String) : Decidable (strHasPre t s) := by
  unfold strHasPre; infer_instance

instance (t s : String) : Decidable (strHasSuf t s) := by
  unfold strHasSuf; infer_instance

theorem strHasSuf_append (x t : String) : strHasSuf t (x ++ t) := by
  unfold strHasSuf
  rw [String.data_append]
  simp [List.drop_left]

theorem strHasPre_append_iff (t a b : String)
    (hlen : t.data.length ≤ a.data.length) :
    strHasPre t (a ++ b) ↔ strHasPre t a := by
  unfold strHasPre
  rw [String.data_append, List.take_append_eq_append_take,
      Nat.sub_eq_zero_of_le hlen]
  simp

theorem not_strHasPre_long (t a b : String)
    (hlen : a.data.length ≤ t.data.length)
    (hne : t.data.take a.data.length ≠ a.data) :
    ¬ strHasPre t (a ++ b) := by
  unfold strHasPre
  intro h
  apply hne
  have h2 := congrArg (List.take a.data.length) h
  rw [List.take_take, min_eq_left hlen, String.data_append, List.take_append_eq_append_take,
      Nat.sub_self, List.take_zero, List.append_nil, List.take_length] at h2
  exact h2.symm

theorem strHasPre_append_of (t a b : String) (h : strHasPre t a) :
    strHasPre t (a ++ b) := by
  have hlen : t.data.length ≤ a.data.length := by
    have h2 := congrArg List.length h
    simp only [List.length_take] at h2
    omega
  rw [strHasPre_append_iff t a b hlen]
  exact h

/-! Numeric lemmas about the truncating coordinate encoding. -/

theorem pyInt_eq_floor_or_ceil (q : ℚ) :
    pyInt q = if 0 ≤ q then ⌊q⌋ else ⌈q⌉ := by
  unfold pyInt
  split
  · next h =>
    rw [Rat.floor_def, Int.tdiv_eq_ediv (Rat.num_nonneg.mpr h) (by positivity)]
  · next h =>
    have hnum : ¬ (0 : Int) ≤ q.num := fun hc => h (Rat.num_nonneg.mp hc)
    have h1 : q.num.tdiv q.den = -((-q.num).tdiv q.den) := by
      rw [Int.neg_tdiv, neg_neg]
    have h2 : (-q.num).tdiv q.den = (-q.num) / (q.den : Int) :=
      Int.tdiv_eq_ediv (by omega) (by positivity)
    have h3 : (⌈q⌉ : Int) = -⌊-q⌋ := by
      rw [Int.floor_neg]
      ring
    have h4 : ⌊-q⌋ = (-q).num / ((-q).den : Int) := Rat.floor_def
    rw [h1, h2, h3, h4]
    congr 2

theorem pyInt_close (q : ℚ) : |q - (pyInt q : ℚ)| < 1 := by
  rw [pyInt_eq_floor_or_ceil]
  split
  · rw [abs_of_nonneg (sub_nonneg.mpr (Int.floor_le q))]
    have := Int.sub_one_lt_floor q
    linarith
  · rw [abs_of_nonpos (sub_nonpos.mpr (Int.le_ceil q))]
    have := Int.ceil_lt_add_one q
    linarith

theorem decode_coord_close (la : ℚ) :
    |(pyInt (la * 10 ^ 7) : ℚ) / 10 ^ 7 - la| < 1 / 10 ^ 7 := by
  have h := pyInt_close (la * 10 ^ 7)
  rw [abs_sub_comm] at h
  have h7 : (0 : ℚ) < 10 ^ 7 := by norm_num
  have heq : (pyInt (la * 10 ^ 7) : ℚ) / 10 ^ 7 - la =
      ((pyInt (la * 10 ^ 7) : ℚ) - la * 10 ^ 7) / 10 ^ 7 := by
    field_simp
    ring
  rw [heq, abs_div, abs_of_pos h7]
  rw [div_lt_div_iff₀ h7 h7]
  nlinarith [abs_nonneg ((pyInt (la * 10 ^ 7) : ℚ) - la * 10 ^ 7)]

theorem pyOrQ_some_zero (v : ℚ) : pyOrQ (some v) 0 = v := by
  unfold pyOrQ
  split <;> simp_all

theorem convert_to_meters_zero (u : String) : convert_to_meters 0 u = 0 := by
  unfold convert_to_meters
  split_ifs <;> norm_num

theorem to_mavlink_x (it : MissionItem) :
    (mission_item_to_mavlink it).x = pyInt (pyOrQ it.latitude 0 * 10 ^ 7) := by
  simp [mission_item_to_mavlink]

theorem to_mavlink_y (it : MissionItem) :
    (mission_item_to_mavlink it).y = pyInt (pyOrQ it.longitude 0 * 10 ^ 7) := by
  simp [mission_item_to_mavlink]

theorem to_mavlink_z (it : MissionItem) :
    (mission_item_to_mavlink it).z =
      convert_to_meters (pyOrQ it.altitude 0) (pyOrStr it.altitude_units "feet") := by
  simp [mission_item_to_mavlink]

theorem to_mavlink_command (it : MissionItem) :
    (mission_item_to_mavlink it).command = commandCodeOf it.command_type := by
  simp [mission_item_to_mavlink]

theorem from_mavlink_core (mav : MavItemDict) :
    (mission_item_from_mavlink mav).command_type = some (commandTypeOf mav.command) ∧
    (mission_item_from_mavlink mav).latitude = some ((mav.x : ℚ) / 10 ^ 7) ∧
    (mission_item_from_mavlink mav).longitude = some ((mav.y : ℚ) / 10 ^ 7) ∧
    (mission_item_from_mavlink mav).altitude = some mav.z ∧
    (mission_item_from_mavlink mav).altitude_units = some "meters" := by
  unfold mission_item_from_mavlink
  dsimp only
  split_ifs <;> simp

/-- Encode-then-decode on one item, for any command type whose numeric code
decodes back to it. -/
theorem roundtrip_item_core (it : MissionItem) (ct : String) (la lo al : ℚ)
    (hct : it.command_type = some ct)
    (hdec : commandTypeOf (commandCodeOf (some ct)) = ct)
    (hla : it.latitude = some la) (hlo : it.longitude = some lo)
    (hal : it.altitude = some al) :
    (mission_item_from_mavlink (mission_item_to_mavlink it)).command_type = some ct ∧
    (∃ la2, (mission_item_from_mavlink (mission_item_to_mavlink it)).latitude = some la2 ∧
      |la2 - la| < 1 / 10 ^ 7) ∧
    (∃ lo2, (mission_item_from_mavlink (mission_item_to_mavlink it)).longitude = some lo2 ∧
      |lo2 - lo| < 1 / 10 ^ 7) ∧
    (mission_item_from_mavlink (mission_item_to_mavlink it)).altitude =
      some (convert_to_meters al (pyOrStr it.altitude_units "feet")) ∧
    (mission_item_from_mavlink (mission_item_to_mavlink it)).altitude_units = some "meters" := by
  obtain ⟨h1, h2, h3, h4, h5⟩ := from_mavlink_core (mission_item_to_mavlink it)
  rw [to_mavlink_command, hct, hdec] at h1
  rw [to_mavlink_x, hla, pyOrQ_some_zero] at h2
  rw [to_mavlink_y, hlo, pyOrQ_some_zero] at h3
  rw [to_mavlink_z, hal, pyOrQ_some_zero] at h4
  exact ⟨h1, ⟨_, h2, decode_coord_close la⟩, ⟨_, h3, decode_coord_close lo⟩, h4, h5⟩

/-! Concrete fixtures used by witnesses and counterexamples. -/

/-- A resolved takeoff item. -/
def itemTK : MissionItem :=
  { seq := 0, command_type := some "takeoff", latitude := some 0, longitude := some 0,
    altitude := some 50, altitude_units := some "feet" }

/-- A resolved waypoint item. -/
def itemWP : MissionItem :=
  { seq := 1, command_type := some "waypoint", latitude := some 1, longitude := some 2,
    altitude := some 100, altitude_units := some "feet" }

/-- A concrete timestamp with microseconds. -/
def dtW : PyDateTime := ⟨2024, 5, 17, 12, 30, 45, 123456⟩

/-- A concrete timestamp without microseconds. -/
def dtW0 : PyDateTime := ⟨2024, 5, 17, 12, 30, 45, 0⟩

/-- A two-item takeoff-plus-waypoint mission. -/
def missionRT : Mission := ⟨[itemTK, itemWP], dtW, dtW0⟩

/-- A mission holding a single waypoint. -/
def missionWPonly : Mission := ⟨[itemWP], dtW, dtW⟩

/-! Claim C9. -/

/-- C9: for every MissionItem `i`, `from_dict (to_dict i)` equals `i`
field-for-field, and for every Mission `m` (timestamp fields within their
digit widths, as CPython datetimes always are), `from_dict (to_dict m)`
preserves every item and both timestamps through their ISO-8601 encoding. -/
theorem dict_roundtrip_c9 :
    (∀ i : MissionItem, MissionItem.from_dict (MissionItem.to_dict i) = i) ∧
    ∀ m : Mission, m.created_at.InRange → m.modified_at.InRange →
      Mission.from_dict (Mission.to_dict m) = m := by
  refine ⟨from_dict_to_dict, ?_⟩
  intro m h1 h2
  cases m with
  | mk items ca ma =>
    simp only [Mission.to_dict, Mission.from_dict, List.map_map,
               fromisoformat_isoformat _ h1, fromisoformat_isoformat _ h2]
    congr 1
    simp [Function.comp_def, from_dict_to_dict]

/-- Witness for C9 at a concrete item and mission. -/
theorem dict_roundtrip_c9_witness :
    MissionItem.from_dict (MissionItem.to_dict itemWP) = itemWP ∧
    missionRT.created_at.InRange ∧ missionRT.modified_at.InRange ∧
    Mission.from_dict (Mission.to_dict missionRT) = missionRT :=
  ⟨dict_roundtrip_c9.1 itemWP, by decide, by decide,
   dict_roundtrip_c9.2 missionRT (by decide) (by decide)⟩

/-! Claim C10. -/

/-- C10: `mission_item_to_mavlink` is total on items with unresolved
geometry; a `None` latitude (resp. longitude) encodes as wire `x = 0`
(resp. `y = 0`), and a `None` altitude encodes as the meters-conversion of
`0`, which is `0`. -/
theorem encode_unresolved_c10 :
    ∀ it : MissionItem,
      (it.latitude = none → (mission_item_to_mavlink it).x = 0) ∧
      (it.longitude = none → (mission_item_to_mavlink it).y = 0) ∧
      (it.altitude = none →
        (mission_item_to_mavlink it).z =
          convert_to_meters 0 (pyOrStr it.altitude_units "feet") ∧
        (mission_item_to_mavlink it).z = 0) := by
  intro it
  refine ⟨fun h => ?_, fun h => ?_, fun h => ?_⟩
  · rw [to_mavlink_x, h]
    show pyInt (pyOrQ none 0 * 10 ^ 7) = 0
    norm_num [pyOrQ, pyInt]
  · rw [to_mavlink_y, h]
    show pyInt (pyOrQ none 0 * 10 ^ 7) = 0
    norm_num [pyOrQ, pyInt]
  · rw [to_mavlink_z, h]
    exact ⟨rfl, convert_to_meters_zero _⟩

/-- A wholly unresolved item. -/
def itemEmpty : MissionItem := { seq := 3 }

/-- Witness for C10 at a concrete unresolved item. -/
theorem encode_unresolved_c10_witness :
    itemEmpty.latitude = none ∧ itemEmpty.longitude = none ∧ itemEmpty.altitude = none ∧
    (mission_item_to_mavlink itemEmpty).x = 0 ∧
    (mission_item_to_mavlink itemEmpty).y = 0 ∧
    (mission_item_to_mavlink itemEmpty).z = 0 :=
  ⟨rfl, rfl, rfl, (encode_unresolved_c10 itemEmpty).1 rfl,
   (encode_unresolved_c10 itemEmpty).2.1 rfl,
   ((encode_unresolved_c10 itemEmpty).2.2 rfl).2⟩

/-! Claim C2. -/

unseal Rat.add Rat.mul Rat.inv Rat.sub in
/-- Counterexample to C2 as stated: a mission containing only the command
type `waypoint` (inside the claimed safe set) does not have its command_type
preserved by `from_mavlink ∘ to_mavlink` — code 16 decodes to `survey`
because the inverse table is built from a non-injective map with last-writer
wins, so the encoding table has no exact inverse. -/
theorem wire_roundtrip_cex_c2 :
    missionWPonly.items.map MissionItem.command_type = [some "waypoint"] ∧
    (mission_from_mavlink dtW (mission_to_mavlink missionWPonly)).items.map
      MissionItem.command_type = [some "survey"] := by
  decide

/-- C2 (amended): `waypoint` is excluded from the preserved set — encoding
maps both `waypoint` and `survey` to code 16 and the decode table maps 16
back to `survey`, so waypoint items decode with command_type `survey`.  For
command types takeoff, loiter, rtl and land (on items with resolved
latitude, longitude and altitude, since `None` geometry encodes as 0 per
C10), the wire round trip preserves command_type, latitude and longitude to
1e-7 degrees, and the altitude converted to meters. -/
theorem wire_roundtrip_amended_c2 (m : Mission) (now : PyDateTime) (i : Nat)
    (hi : i < m.items.length) (ct : String) (la lo al : ℚ)
    (hct : m.items[i].command_type = some ct)
    (hmem : ct = "takeoff" ∨ ct = "loiter" ∨ ct = "rtl" ∨ ct = "land")
    (hla : m.items[i].latitude = some la)
    (hlo : m.items[i].longitude = some lo)
    (hal : m.items[i].altitude = some al) :
    ∃ hj : i < (mission_from_mavlink now (mission_to_mavlink m)).items.length,
      (mission_from_mavlink now (mission_to_mavlink m)).items[i].command_type = some ct ∧
      (∃ la2, (mission_from_mavlink now (mission_to_mavlink m)).items[i].latitude = some la2 ∧
        |la2 - la| < 1 / 10 ^ 7) ∧
      (∃ lo2, (mission_from_mavlink now (mission_to_mavlink m)).items[i].longitude = some lo2 ∧
        |lo2 - lo| < 1 / 10 ^ 7) ∧
      (mission_from_mavlink now (mission_to_mavlink m)).items[i].altitude =
        some (convert_to_meters al (pyOrStr (m.items[i].altitude_units) "feet")) ∧
      (mission_from_mavlink now (mission_to_mavlink m)).items[i].altitude_units =
        some "meters" := by
  have hlen : (mission_from_mavlink now (mission_to_mavlink m)).items.length =
      m.items.length := by
    simp [mission_from_mavlink, mission_to_mavlink]
  have hj : i < (mission_from_mavlink now (mission_to_mavlink m)).items.length := by
    omega
  refine ⟨hj, ?_⟩
  have hg : (mission_from_mavlink now (mission_to_mavlink m)).items[i] =
      mission_item_from_mavlink (mission_item_to_mavlink m.items[i]) := by
    simp [mission_from_mavlink, mission_to_mavlink]
  rw [hg]
  have hdec : commandTypeOf (commandCodeOf (some ct)) = ct := by
    rcases hmem with rfl | rfl | rfl | rfl <;> decide
  exact roundtrip_item_core _ ct la lo al hct hdec hla hlo hal

unseal Rat.add Rat.mul Rat.inv Rat.sub in
/-- Witness for the amended C2 at the takeoff item of a concrete mission. -/
theorem wire_roundtrip_amended_c2_witness :
    (0 : Nat) < missionRT.items.length ∧
    ∃ hj : (0 : Nat) < (mission_from_mavlink dtW (mission_to_mavlink missionRT)).items.length,
      (mission_from_mavlink dtW (mission_to_mavlink missionRT)).items[0].command_type =
        some "takeoff" ∧
      (∃ la2, (mission_from_mavlink dtW (mission_to_mavlink missionRT)).items[0].latitude =
        some la2 ∧ |la2 - 0| < 1 / 10 ^ 7) ∧
      (∃ lo2, (mission_from_mavlink dtW (mission_to_mavlink missionRT)).items[0].longitude =
        some lo2 ∧ |lo2 - 0| < 1 / 10 ^ 7) ∧
      (mission_from_mavlink dtW (mission_to_mavlink missionRT)).items[0].altitude =
        some (convert_to_meters 50 (pyOrStr itemTK.altitude_units "feet")) ∧
      (mission_from_mavlink dtW (mission_to_mavlink missionRT)).items[0].altitude_units =
        some "meters" := by
  refine ⟨by decide, ?_⟩
  exact wire_roundtrip_amended_c2 missionRT dtW 0 (by decide) "takeoff" 0 0 50
    (by decide) (Or.inl rfl) (by decide) (by decide) (by decide)

/-! Claim C1. -/

unseal Rat.add Rat.mul Rat.inv Rat.sub in
/-- C1 is a code bug, witnessed by a concrete run: moving the only waypoint
of a one-item mission to an MGRS position clears its latitude/longitude, the
spec-modelled validator rejects the unresolved item, and the handler
restores the snapshot — yet the mission after the call differs field-wise
from the mission before it, because `_save_mission_state` snapshots only the
item list (`[item for item in mission.items]`) while `move_item` mutated the
item object in place, so the restored list holds the mutated object. -/
theorem atomicity_bug_c1 :
    (let r := moveItemRun specValidate specSummary calculate_absolute_coordinates
        [itemWP] [0] 1 none (some "31UDQ48251") none none none
     strHasPre "Planning Error:" r.1 ∧
     missionValue r.2.1 r.2.2 ≠ missionValue [itemWP] [0] ∧
     (heapGet r.2.1 0).mgrs = some "31UDQ48251" ∧
     (heapGet r.2.1 0).latitude = none) := by
  decide

/-! Claim C7. -/

unseal Rat.add Rat.mul Rat.inv Rat.sub in
/-- C7 is a code bug, witnessed by a concrete run: a `move_item` call that
supplies both absolute coordinates and a relative offset with the `origin`
reference frame, on a mission without a takeoff item, first commits the GPS
mutation in place and then returns the resolution-impossibility error from
inside the reference-resolution block with a plain `return` — no
`_restore_mission_state` call — leaving the mission changed. -/
theorem no_rollback_c7 :
    (let r := moveItemRun specValidate specSummary calculate_absolute_coordinates
        [itemWP] [0] 1 (some (10, 20)) none (some (500, "meters")) (some "east")
        (some "origin")
     r.1 = "Error: Cannot use \x27origin\x27 reference - no takeoff item with coordinates found in mission." ∧
     missionValue r.2.1 r.2.2 ≠ missionValue [itemWP] [0] ∧
     (heapGet r.2.1 0).latitude = some 10 ∧
     (heapGet r.2.1 0).longitude = some 20) := by
  decide

/-! Claim C3. -/

/-- Session state before a `plan` request: live two-item mission, one chat
message, mission mode. -/
def stPlan : AgentState :=
  { itemHeap := [itemTK, itemWP], missionHeap := [⟨[0, 1]⟩],
    currentMission := some 0, chatHistory := ["system"],
    currentMode := some "mission" }

/-- An agent run that performs one successful `move_item` edit. -/
def runPlan : List ToolCall :=
  [ToolCall.moveItem 2 (some (2, 3)) none none none none]

unseal Rat.add Rat.mul Rat.inv Rat.sub in
/-- C3 is a code bug, witnessed by a concrete run: `plan` saves only the
mission object reference (`original_mission = get_mission()`), so after a
request in which the agent run commits a `move_item` edit the `finally`
block restores the reference but the live mission value differs from its
pre-call value; the chat history and the mode are restored. -/
theorem plan_restore_bug_c3 :
    liveMission (plan runPlan stPlan "mission" none) ≠ liveMission stPlan ∧
    (plan runPlan stPlan "mission" none).chatHistory = stPlan.chatHistory ∧
    (plan runPlan stPlan "mission" none).currentMode = stPlan.currentMode := by
  decide

/-! Heap access lemmas. -/

theorem heapGet_oob (h : ItemHeap) (t : Nat) (ht : h.length ≤ t) :
    heapGet h t = defaultItem := by
  simp [heapGet, List.getD, List.getElem?_eq_none, ht]

theorem heapGet_heapSet_self (h : ItemHeap) (t : Nat) (it : MissionItem)
    (ht : t < h.length) : heapGet (heapSet h t it) t = it := by
  simp [heapGet, heapSet, List.getD, List.getElem?_set_self, ht]

theorem heapGet_heapSet (h : ItemHeap) (t : Nat) (it : MissionItem) :
    heapGet (heapSet h t it) t = if t < h.length then it else heapGet h t := by
  split
  · next ht => exact heapGet_heapSet_self h t it ht
  · next ht =>
    rw [heapSet, List.set_eq_of_length_le (by omega)]

theorem ct_lt_length (h : ItemHeap) (t : Nat)
    (hct : (heapGet h t).command_type ≠ none) : t < h.length := by
  by_contra hc
  push_neg at hc
  rw [heapGet_oob h t hc] at hct
  exact hct rfl

theorem supports_ne_none (ct : Option String) (h : cmdSupportsPosition ct = true) :
    ct ≠ none := by
  intro hc
  subst hc
  simp [cmdSupportsPosition] at h

theorem supports_requires (ct : Option String) (h : cmdSupportsPosition ct = true) :
    requiresPosition ct = true := by
  unfold cmdSupportsPosition at h
  unfold requiresPosition
  rcases Bool.or_eq_true_iff.mp h with h1 | h1
  · rcases Bool.or_eq_true_iff.mp h1 with h2 | h2 <;> simp [h2]
  · simp [h1]

theorem mem_missionValue (h : ItemHeap) (refs : List Nat) (i : Nat)
    (hi : i < refs.length) : heapGet h (refs.getD i 0) ∈ missionValue h refs := by
  apply List.mem_map_of_mem
  rw [List.getD_eq_getElem refs 0 hi]
  exact List.getElem_mem hi

/-! Inversion lemmas for the four `move_item` branches. -/

theorem moveStepCoords_inr (heap : ItemHeap) (tgt : Nat) (seq : Int)
    (ct : Option String) (la? lo? : Option ℚ) (h1 : ItemHeap) (c1 : List String)
    (h : moveStepCoords heap tgt seq ct la? lo? = .inr (h1, c1)) :
    (h1 = heap ∧ c1 = [] ∧ (la? = none ∨ lo? = none)) ∨
    (∃ la lo, la? = some la ∧ lo? = some lo ∧ cmdSupportsPosition ct = true ∧
      h1 = heapSet heap tgt (coordsMutation (heapGet heap tgt) la lo) ∧ c1 ≠ []) := by
  unfold moveStepCoords at h
  match la?, lo? with
  | none, _ => simp_all
  | some la, none => simp_all
  | some la, some lo =>
    right
    dsimp only at h
    by_cases hs : cmdSupportsPosition ct = true
    · rw [if_pos hs] at h
      simp only [Sum.inr.injEq, Prod.mk.injEq] at h
      exact ⟨la, lo, rfl, rfl, hs, h.1.symm, by simp [← h.2]⟩
    · rw [if_neg hs] at h
      simp at h

theorem moveStepMgrs_inr (heap : ItemHeap) (tgt : Nat) (seq : Int)
    (ct : Option String) (mg : Option String) (h2 : ItemHeap) (c2 : List String)
    (h : moveStepMgrs heap tgt seq ct mg = .inr (h2, c2)) :
    (h2 = heap ∧ c2 = [] ∧ mg = none) ∨
    (∃ g, mg = some g ∧ cmdSupportsPosition ct = true ∧
      h2 = heapSet heap tgt (mgrsMutation (heapGet heap tgt) g) ∧ c2 ≠ []) := by
  unfold moveStepMgrs at h
  match mg with
  | none => simp_all
  | some g =>
    right
    dsimp only at h
    by_cases hs : cmdSupportsPosition ct = true
    · rw [if_pos hs] at h
      simp only [Sum.inr.injEq, Prod.mk.injEq] at h
      exact ⟨g, rfl, hs, h.1.symm, by simp [← h.2]⟩
    · rw [if_neg hs] at h
      simp at h

theorem moveStepRelative_inr
    (calcAbs : ℚ → ℚ → ℚ → String → String → Except String (ℚ × ℚ))
    (heap : ItemHeap) (refs : List Nat) (tgt : Nat) (seq : Int)
    (ct : Option String) (dv? : Option ℚ) (du : String) (hd? fr : Option String)
    (h3 : ItemHeap) (c3 : List String)
    (h : moveStepRelative calcAbs heap refs tgt seq ct dv? du hd? fr = .inr (h3, c3)) :
    (h3 = heap ∧ c3 = [] ∧ (dv? = none ∨ hd? = none)) ∨
    (∃ nl nlo, cmdSupportsPosition ct = true ∧
      h3 = heapSet heap tgt (relativeMutation (heapGet heap tgt) nl nlo) ∧ c3 ≠ []) := by
  unfold moveStepRelative at h
  match dv?, hd? with
  | none, _ => simp_all
  | some dv, none => simp_all
  | some dv, some hd =>
    right
    dsimp only at h
    by_cases hs : cmdSupportsPosition ct = true
    · rw [if_pos hs] at h
      split at h
      · simp_all
      · split at h
        · simp_all
        · simp only [Sum.inr.injEq, Prod.mk.injEq] at h
          exact ⟨_, _, hs, h.1.symm, by simp [← h.2]⟩
    · rw [if_neg hs] at h
      simp at h

theorem moveStepHeadingOnly_inr (heap : ItemHeap) (tgt : Nat) (seq : Int)
    (ct : Option String) (hd? : Option String) (di? : Option (ℚ × String))
    (h4 : ItemHeap) (c4 : List String)
    (h : moveStepHeadingOnly heap tgt seq ct hd? di? = .inr (h4, c4)) :
    (h4 = heap ∧ c4 = []) ∨
    (∃ hv, h4 = heapSet heap tgt (headingMutation (heapGet heap tgt) hv)) := by
  unfold moveStepHeadingOnly at h
  match hd?, di? with
  | none, _ => simp_all
  | some hd, some d => simp_all
  | some hd, none =>
    right
    dsimp only at h
    by_cases hs : cmdSupportsHeading ct = true
    · rw [if_pos hs] at h
      simp only [Sum.inr.injEq, Prod.mk.injEq] at h
      exact ⟨hd, h.1.symm⟩
    · rw [if_neg hs] at h
      simp at h

/-! Every early-return message of the `move_item` branches is prefixed with
`Error:`. -/

theorem resolveReference_inl (heap : ItemHeap) (refs : List Nat) (tgt : Nat)
    (seq : Int) (frame : Option String) (msg : String)
    (h : resolveReference heap refs tgt seq frame = .inl msg) :
    strHasPre "Error:" msg := by
  unfold resolveReference at h
  split_ifs at h
  · dsimp only at h
    split at h
    · simp at h
    · simp only [Sum.inl.injEq] at h
      exact h ▸ (by decide)
  · split at h
    · simp at h
    · simp only [Sum.inl.injEq] at h
      exact h ▸ (by decide)
  · split at h
    · simp at h
    · split at h
      · simp at h
      · simp only [Sum.inl.injEq] at h
        exact h ▸ (by decide)
  · split at h
    · simp at h
    · simp only [Sum.inl.injEq] at h
      exact h ▸ (by decide)

theorem moveStepCoords_inl (heap : ItemHeap) (tgt : Nat) (seq : Int)
    (ct : Option String) (la? lo? : Option ℚ) (msg : String) (hh : ItemHeap)
    (h : moveStepCoords heap tgt seq ct la? lo? = .inl (msg, hh)) :
    strHasPre "Error:" msg := by
  unfold moveStepCoords at h
  match la?, lo? with
  | none, _ => simp at h
  | some la, none => simp at h
  | some la, some lo =>
    dsimp only at h
    by_cases hs : cmdSupportsPosition ct = true
    · rw [if_pos hs] at h
      simp at h
    · rw [if_neg hs] at h
      simp only [Sum.inl.injEq, Prod.mk.injEq] at h
      rw [← h.1]
      repeat' apply strHasPre_append_of
      decide

theorem moveStepMgrs_inl (heap : ItemHeap) (tgt : Nat) (seq : Int)
    (ct : Option String) (mg : Option String) (msg : String) (hh : ItemHeap)
    (h : moveStepMgrs heap tgt seq ct mg = .inl (msg, hh)) :
    strHasPre "Error:" msg := by
  unfold moveStepMgrs at h
  match mg with
  | none => simp at h
  | some g =>
    dsimp only at h
    by_cases hs : cmdSupportsPosition ct = true
    · rw [if_pos hs] at h
      simp at h
    · rw [if_neg hs] at h
      simp only [Sum.inl.injEq, Prod.mk.injEq] at h
      rw [← h.1]
      repeat' apply strHasPre_append_of
      decide

theorem moveStepRelative_inl
    (calcAbs : ℚ → ℚ → ℚ → String → String → Except String (ℚ × ℚ))
    (heap : ItemHeap) (refs : List Nat) (tgt : Nat) (seq : Int)
    (ct : Option String) (dv? : Option ℚ) (du : String) (hd? fr : Option String)
    (msg : String) (hh : ItemHeap)
    (h : moveStepRelative calcAbs heap refs tgt seq ct dv? du hd? fr = .inl (msg, hh)) :
    strHasPre "Error:" msg := by
  unfold moveStepRelative at h
  match dv?, hd? with
  | none, _ => simp at h
  | some dv, none => simp at h
  | some dv, some hd =>
    dsimp only at h
    by_cases hs : cmdSupportsPosition ct = true
    · rw [if_pos hs] at h
      split at h
      · next msg1 heq =>
        simp only [Sum.inl.injEq, Prod.mk.injEq] at h
        rw [← h.1]
        exact resolveReference_inl heap refs tgt seq fr msg1 heq
      · split at h
        · simp only [Sum.inl.injEq, Prod.mk.injEq] at h
          rw [← h.1]
          repeat' apply strHasPre_append_of
          decide
        · simp at h
    · rw [if_neg hs] at h
      simp only [Sum.inl.injEq, Prod.mk.injEq] at h
      rw [← h.1]
      repeat' apply strHasPre_append_of
      decide

theorem moveStepHeadingOnly_inl (heap : ItemHeap) (tgt : Nat) (seq : Int)
    (ct : Option String) (hd? : Option String) (di? : Option (ℚ × String))
    (msg : String) (hh : ItemHeap)
    (h : moveStepHeadingOnly heap tgt seq ct hd? di? = .inl (msg, hh)) :
    strHasPre "Error:" msg := by
  unfold moveStepHeadingOnly at h
  match hd?, di? with
  | none, _ => simp at h
  | some hd, some d => simp at h
  | some hd, none =>
    dsimp only at h
    by_cases hs : cmdSupportsHeading ct = true
    · rw [if_pos hs] at h
      simp at h
    · rw [if_neg hs] at h
      simp only [Sum.inl.injEq, Prod.mk.injEq] at h
      rw [← h.1]
      repeat' apply strHasPre_append_of
      decide


/-! Claim C8 machinery: classification of every handler response. -/

theorem moveItemRun_response_classes
    (validate : List MissionItem → Bool × List String)
    (summary : List MissionItem → String)
    (calcAbs : ℚ → ℚ → ℚ → String → String → Except String (ℚ × ℚ))
    (heap : ItemHeap) (refs : List Nat) (seq : Int) (co : Option (ℚ × ℚ))
    (mg : Option String) (di : Option (ℚ × String)) (hd fr : Option String) :
    strHasPre "Error:" (moveItemRun validate summary calcAbs heap refs seq co mg di hd fr).1 ∨
    strHasPre "Planning Error:" (moveItemRun validate summary calcAbs heap refs seq co mg di hd fr).1 ∨
    strHasSuf (summary (missionValue (moveItemRun validate summary calcAbs heap refs seq co mg di hd fr).2.1
      (moveItemRun validate summary calcAbs heap refs seq co mg di hd fr).2.2))
      (moveItemRun validate summary calcAbs heap refs seq co mg di hd fr).1 ∨
    (moveItemRun validate summary calcAbs heap refs seq co mg di hd fr).1 = noChangesMsg := by
  unfold moveItemRun
  dsimp only
  split
  · dsimp only
    exact Or.inl (by decide)
  · split
    · dsimp only
      refine Or.inl ?_
      repeat' apply strHasPre_append_of
      decide
    · split
      · next msg hX heq =>
        dsimp only
        exact Or.inl (moveStepCoords_inl _ _ _ _ _ _ _ _ heq)
      · next h1 c1 heq1 =>
        split
        · next msg hX heq =>
          dsimp only
          exact Or.inl (moveStepMgrs_inl _ _ _ _ _ _ _ heq)
        · next h2 c2 heq2 =>
          split
          · next msg hX heq =>
            dsimp only
            exact Or.inl (moveStepRelative_inl _ _ _ _ _ _ _ _ _ _ _ _ heq)
          · next h3 c3 heq3 =>
            split
            · next msg hX heq =>
              dsimp only
              exact Or.inl (moveStepHeadingOnly_inl _ _ _ _ _ _ _ _ heq)
            · next h4 c4 heq4 =>
              split
              · dsimp only
                exact Or.inr (Or.inr (Or.inr rfl))
              · split
                · dsimp only
                  refine Or.inr (Or.inl ?_)
                  repeat' apply strHasPre_append_of
                  decide
                · dsimp only
                  exact Or.inr (Or.inr (Or.inl (strHasSuf_append _ _)))

theorem addRTLRun_response_classes
    (validate : List MissionItem → Bool × List String)
    (summary : List MissionItem → String)
    (heap : ItemHeap) (refs : List Nat) (alt : Option (ℚ × String)) :
    strHasPre "Error:" (addRTLRun validate summary heap refs alt).1 ∨
    strHasPre "Planning Error:" (addRTLRun validate summary heap refs alt).1 ∨
    strHasSuf (summary (missionValue (addRTLRun validate summary heap refs alt).2.1
      (addRTLRun validate summary heap refs alt).2.2))
      (addRTLRun validate summary heap refs alt).1 := by
  unfold addRTLRun
  dsimp only
  split
  · dsimp only
    refine Or.inr (Or.inl ?_)
    repeat' apply strHasPre_append_of
    decide
  · dsimp only
    exact Or.inr (Or.inr (strHasSuf_append _ _))

/-- C8 (amended): the embedded handlers are total functions returning a
string on every input; every `add_rtl` response either carries a failure
prefix (`Error:` / `Planning Error:`) or embeds the mission state summary,
and every `move_item` response does too EXCEPT the no-position-changes path,
which returns a fixed instruction string bearing neither the failure prefix
nor the summary. -/
theorem handler_responses_amended_c8
    (validate : List MissionItem → Bool × List String)
    (summary : List MissionItem → String)
    (calcAbs : ℚ → ℚ → ℚ → String → String → Except String (ℚ × ℚ))
    (heap : ItemHeap) (refs : List Nat) (seq : Int) (co : Option (ℚ × ℚ))
    (mg : Option String) (di : Option (ℚ × String)) (hd fr : Option String)
    (alt : Option (ℚ × String)) :
    (strHasPre "Error:" (moveItemRun validate summary calcAbs heap refs seq co mg di hd fr).1 ∨
     strHasPre "Planning Error:" (moveItemRun validate summary calcAbs heap refs seq co mg di hd fr).1 ∨
     strHasSuf (summary (missionValue (moveItemRun validate summary calcAbs heap refs seq co mg di hd fr).2.1
       (moveItemRun validate summary calcAbs heap refs seq co mg di hd fr).2.2))
       (moveItemRun validate summary calcAbs heap refs seq co mg di hd fr).1 ∨
     (moveItemRun validate summary calcAbs heap refs seq co mg di hd fr).1 = noChangesMsg) ∧
    (strHasPre "Error:" (addRTLRun validate summary heap refs alt).1 ∨
     strHasPre "Planning Error:" (addRTLRun validate summary heap refs alt).1 ∨
     strHasSuf (summary (missionValue (addRTLRun validate summary heap refs alt).2.1
       (addRTLRun validate summary heap refs alt).2.2))
       (addRTLRun validate summary heap refs alt).1) :=
  ⟨moveItemRun_response_classes validate summary calcAbs heap refs seq co mg di hd fr,
   addRTLRun_response_classes validate summary heap refs alt⟩

set_option maxRecDepth 4000 in
unseal Rat.add Rat.mul Rat.inv Rat.sub in
/-- Counterexample to C8 as stated: calling `move_item` with no positioning
arguments at all on a live two-item mission returns the fixed
no-position-changes string, which is not prefixed like a failure and embeds
no state summary — so failures are not always prefixed distinctly and this
non-success carries no summary. -/
theorem handler_responses_cex_c8 :
    (let r := moveItemRun specValidate specSummary calculate_absolute_coordinates
        [itemTK, itemWP] [0, 1] 2 none none none none none
     r.1 = noChangesMsg ∧
     ¬ strHasPre "Error:" r.1 ∧
     ¬ strHasPre "Planning Error:" r.1 ∧
     ¬ strHasSuf (specSummary (missionValue r.2.1 r.2.2)) r.1) := by
  decide

/-! Claims C5 and C6 machinery: the relative-positioning path of
`move_item` when no absolute-coordinate or MGRS update runs in the same
call. -/

theorem moveItemRun_relative_ok
    (validate : List MissionItem → Bool × List String)
    (summary : List MissionItem → String)
    (calcAbs : ℚ → ℚ → ℚ → String → String → Except String (ℚ × ℚ))
    (heap : ItemHeap) (refs : List Nat) (seq : Int) (dv : ℚ) (du hd : String)
    (fr : Option String)
    (hseq1 : 1 ≤ seq) (hseq2 : seq ≤ (refs.length : Int))
    (hsup : cmdSupportsPosition
      ((heapGet heap (refs.getD (seq - 1).toNat 0)).command_type) = true)
    (ra rb nl nlo : ℚ)
    (href : resolveReference heap refs (refs.getD (seq - 1).toNat 0) seq fr = .inr (ra, rb))
    (hcalc : calcAbs ra rb dv hd du = .ok (nl, nlo)) :
    (moveItemRun validate summary calcAbs heap refs seq none none (some (dv, du))
      (some hd) fr).2.1 =
      heapSet heap (refs.getD (seq - 1).toNat 0)
        (relativeMutation (heapGet heap (refs.getD (seq - 1).toNat 0)) nl nlo) ∧
    (moveItemRun validate summary calcAbs heap refs seq none none (some (dv, du))
      (some hd) fr).2.2 = refs := by
  have hlen : 0 < refs.length := by omega
  have hne : ¬ refs.isEmpty = true := by
    rw [List.isEmpty_iff]
    intro hc
    rw [hc] at hlen
    simp at hlen
  have hguard : ¬ (decide (seq < 1) || decide ((refs.length : Int) ≤ seq - 1)) = true := by
    simp only [Bool.or_eq_true, decide_eq_true_eq]
    push_neg
    omega
  unfold moveItemRun
  dsimp only [unpack_measurement, unpack_coordinates]
  rw [if_neg hne, if_neg hguard]
  dsimp only [moveStepCoords, moveStepMgrs, moveStepRelative]
  rw [if_pos hsup, href]
  dsimp only
  rw [hcalc]
  dsimp only [moveStepHeadingOnly]
  simp only [List.nil_append, List.append_nil, List.isEmpty_cons, Bool.false_eq_true,
             if_false]
  split <;> exact ⟨rfl, rfl⟩

theorem moveItemRun_relative_err
    (validate : List MissionItem → Bool × List String)
    (summary : List MissionItem → String)
    (calcAbs : ℚ → ℚ → ℚ → String → String → Except String (ℚ × ℚ))
    (heap : ItemHeap) (refs : List Nat) (seq : Int) (dv : ℚ) (du hd : String)
    (fr : Option String)
    (hseq1 : 1 ≤ seq) (hseq2 : seq ≤ (refs.length : Int))
    (hsup : cmdSupportsPosition
      ((heapGet heap (refs.getD (seq - 1).toNat 0)).command_type) = true)
    (msg : String)
    (href : resolveReference heap refs (refs.getD (seq - 1).toNat 0) seq fr = .inl msg) :
    moveItemRun validate summary calcAbs heap refs seq none none (some (dv, du))
      (some hd) fr = (msg, heap, refs) := by
  have hlen : 0 < refs.length := by omega
  have hne : ¬ refs.isEmpty = true := by
    rw [List.isEmpty_iff]
    intro hc
    rw [hc] at hlen
    simp at hlen
  have hguard : ¬ (decide (seq < 1) || decide ((refs.length : Int) ≤ seq - 1)) = true := by
    simp only [Bool.or_eq_true, decide_eq_true_eq]
    push_neg
    omega
  unfold moveItemRun
  dsimp only [unpack_measurement, unpack_coordinates]
  rw [if_neg hne, if_neg hguard]
  dsimp only [moveStepCoords, moveStepMgrs, moveStepRelative]
  rw [if_pos hsup, href]

/-! Claim C5. -/

/-- C5 (amended): for every `move_item` call that supplies relative
positioning with `relative_reference_frame = self` on an item that supports
positioning — and supplies no absolute coordinates and no MGRS in the same
call, which would otherwise overwrite the item before the relative branch
reads it — the new position is computed by `calculate_absolute_coordinates`
from the item's own pre-call latitude/longitude as the reference origin, not
from the mission origin, and the stored item becomes exactly that resolved
result. -/
theorem move_self_premove_c5
    (validate : List MissionItem → Bool × List String)
    (summary : List MissionItem → String)
    (calcAbs : ℚ → ℚ → ℚ → String → String → Except String (ℚ × ℚ))
    (heap : ItemHeap) (refs : List Nat) (seq : Int) (dv : ℚ) (du hd : String)
    (hseq1 : 1 ≤ seq) (hseq2 : seq ≤ (refs.length : Int))
    (a b nl nlo : ℚ)
    (hsup : cmdSupportsPosition
      ((heapGet heap (refs.getD (seq - 1).toNat 0)).command_type) = true)
    (ha : (heapGet heap (refs.getD (seq - 1).toNat 0)).latitude = some a)
    (hb : (heapGet heap (refs.getD (seq - 1).toNat 0)).longitude = some b)
    (hcalc : calcAbs a b dv hd du = .ok (nl, nlo)) :
    heapGet (moveItemRun validate summary calcAbs heap refs seq none none
      (some (dv, du)) (some hd) (some "self")).2.1 (refs.getD (seq - 1).toNat 0) =
      relativeMutation (heapGet heap (refs.getD (seq - 1).toNat 0)) nl nlo ∧
    (moveItemRun validate summary calcAbs heap refs seq none none
      (some (dv, du)) (some hd) (some "self")).2.2 = refs := by
  have href : resolveReference heap refs (refs.getD (seq - 1).toNat 0) seq
      (some "self") = .inr (a, b) := by
    unfold resolveReference
    rw [if_pos rfl]
    dsimp only
    rw [ha, hb]
  obtain ⟨h1, h2⟩ := moveItemRun_relative_ok validate summary calcAbs heap refs seq
    dv du hd (some "self") hseq1 hseq2 hsup a b nl nlo href hcalc
  refine ⟨?_, h2⟩
  rw [h1]
  exact heapGet_heapSet_self _ _ _ (ct_lt_length heap _ (supports_ne_none _ hsup))

set_option maxRecDepth 8000 in
unseal Rat.add Rat.mul Rat.inv Rat.sub in
/-- Witness for the amended C5: moving the waypoint at (1, 2) 1000 meters
north relative to itself stores the point computed from (1, 2). -/
theorem move_self_premove_c5_witness :
    heapGet (moveItemRun specValidate specSummary calculate_absolute_coordinates
      [itemTK, itemWP] [0, 1] 2 none none (some (1000, "meters")) (some "north")
      (some "self")).2.1 1 =
      relativeMutation itemWP (1 + 1000 / metersPerDegree) 2 ∧
    (moveItemRun specValidate specSummary calculate_absolute_coordinates
      [itemTK, itemWP] [0, 1] 2 none none (some (1000, "meters")) (some "north")
      (some "self")).2.2 = [0, 1] :=
  move_self_premove_c5 specValidate specSummary calculate_absolute_coordinates
    [itemTK, itemWP] [0, 1] 2 1000 "meters" "north" (by decide) (by decide)
    1 2 (1 + 1000 / metersPerDegree) 2 (by decide) (by decide) (by decide) (by decide)

set_option maxRecDepth 8000 in
unseal Rat.add Rat.mul Rat.inv Rat.sub in
/-- Counterexample to C5 as stated: a single `move_item` call may supply
absolute coordinates AND a relative offset with the `self` frame; the
coordinates branch runs first and overwrites the item, so the relative
branch resolves from the freshly written coordinates (10, 20) rather than
the item's pre-move coordinates (1, 2). -/
theorem move_self_cex_c5 :
    (let r := moveItemRun specValidate specSummary calculate_absolute_coordinates
        [itemWP] [0] 1 (some (10, 20)) none (some (1000, "meters")) (some "north")
        (some "self")
     itemWP.latitude = some 1 ∧ itemWP.longitude = some 2 ∧
     calculate_absolute_coordinates 1 2 1000 "north" "meters" =
       .ok (1 + 1000 / metersPerDegree, 2) ∧
     (heapGet r.2.1 0).latitude = some (10 + 1000 / metersPerDegree) ∧
     (10 + 1000 / metersPerDegree : ℚ) ≠ 1 + 1000 / metersPerDegree) := by
  decide

/-! Claim C6. -/

/-- C6 (amended): for the `last_waypoint` reference frame (relative
positioning only in the call), the reference point is the coordinates of the
nearest item strictly before the target — scanning backward — whose
command_type is one of waypoint, takeoff, loiter or survey AND whose
latitude and longitude are resolved (items of other types, such as an rtl
with coordinates, are skipped); with no such prior item the reference falls
back to the mission's first takeoff item's coordinates, and if that also
fails the call returns the cannot-find-reference error with the mission
unchanged. -/
theorem move_last_waypoint_amended_c6
    (validate : List MissionItem → Bool × List String)
    (summary : List MissionItem → String)
    (calcAbs : ℚ → ℚ → ℚ → String → String → Except String (ℚ × ℚ))
    (heap : ItemHeap) (refs : List Nat) (seq : Int) (dv : ℚ) (du hd : String)
    (hseq1 : 1 ≤ seq) (hseq2 : seq ≤ (refs.length : Int))
    (hsup : cmdSupportsPosition
      ((heapGet heap (refs.getD (seq - 1).toNat 0)).command_type) = true) :
    (∀ a b nl nlo,
      find_last_waypoint_coordinates heap refs (seq - 1).toNat = some (a, b) →
      calcAbs a b dv hd du = .ok (nl, nlo) →
      heapGet (moveItemRun validate summary calcAbs heap refs seq none none
        (some (dv, du)) (some hd) (some "last_waypoint")).2.1
        (refs.getD (seq - 1).toNat 0) =
        relativeMutation (heapGet heap (refs.getD (seq - 1).toNat 0)) nl nlo ∧
      (moveItemRun validate summary calcAbs heap refs seq none none
        (some (dv, du)) (some hd) (some "last_waypoint")).2.2 = refs) ∧
    (∀ a b nl nlo,
      find_last_waypoint_coordinates heap refs (seq - 1).toNat = none →
      get_origin_coordinates heap refs = some (a, b) →
      calcAbs a b dv hd du = .ok (nl, nlo) →
      heapGet (moveItemRun validate summary calcAbs heap refs seq none none
        (some (dv, du)) (some hd) (some "last_waypoint")).2.1
        (refs.getD (seq - 1).toNat 0) =
        relativeMutation (heapGet heap (refs.getD (seq - 1).toNat 0)) nl nlo ∧
      (moveItemRun validate summary calcAbs heap refs seq none none
        (some (dv, du)) (some hd) (some "last_waypoint")).2.2 = refs) ∧
    (find_last_waypoint_coordinates heap refs (seq - 1).toNat = none →
      get_origin_coordinates heap refs = none →
      moveItemRun validate summary calcAbs heap refs seq none none
        (some (dv, du)) (some hd) (some "last_waypoint") =
        ("Error: Cannot find reference point - no last waypoint and no takeoff item with coordinates found.",
         heap, refs)) := by
  refine ⟨fun a b nl nlo hfind hcalc => ?_, fun a b nl nlo hfind horig hcalc => ?_,
          fun hfind horig => ?_⟩
  · have href : resolveReference heap refs (refs.getD (seq - 1).toNat 0) seq
        (some "last_waypoint") = .inr (a, b) := by
      unfold resolveReference
      rw [if_neg (by decide), if_neg (by decide), if_pos rfl, hfind]
    obtain ⟨h1, h2⟩ := moveItemRun_relative_ok validate summary calcAbs heap refs seq
      dv du hd (some "last_waypoint") hseq1 hseq2 hsup a b nl nlo href hcalc
    refine ⟨?_, h2⟩
    rw [h1]
    exact heapGet_heapSet_self _ _ _ (ct_lt_length heap _ (supports_ne_none _ hsup))
  · have href : resolveReference heap refs (refs.getD (seq - 1).toNat 0) seq
        (some "last_waypoint") = .inr (a, b) := by
      unfold resolveReference
      rw [if_neg (by decide), if_neg (by decide), if_pos rfl, hfind]
      dsimp only
      rw [horig]
    obtain ⟨h1, h2⟩ := moveItemRun_relative_ok validate summary calcAbs heap refs seq
      dv du hd (some "last_waypoint") hseq1 hseq2 hsup a b nl nlo href hcalc
    refine ⟨?_, h2⟩
    rw [h1]
    exact heapGet_heapSet_self _ _ _ (ct_lt_length heap _ (supports_ne_none _ hsup))
  · have href : resolveReference heap refs (refs.getD (seq - 1).toNat 0) seq
        (some "last_waypoint") =
        .inl "Error: Cannot find reference point - no last waypoint and no takeoff item with coordinates found." := by
      unfold resolveReference
      rw [if_neg (by decide), if_neg (by decide), if_pos rfl, hfind]
      dsimp only
      rw [horig]
    exact moveItemRun_relative_err validate summary calcAbs heap refs seq dv du hd
      (some "last_waypoint") hseq1 hseq2 hsup _ href

/-- A waypoint with resolved coordinates (7, 8). -/
def itemWP2 : MissionItem :=
  { seq := 1, command_type := some "waypoint", latitude := some 7, longitude := some 8,
    altitude := some 100, altitude_units := some "feet" }

/-- A third waypoint with resolved coordinates (1, 1). -/
def itemWP3 : MissionItem :=
  { seq := 2, command_type := some "waypoint", latitude := some 1, longitude := some 1,
    altitude := some 100, altitude_units := some "feet" }

/-- An rtl item that happens to carry resolved coordinates (5, 6), as items
decoded from the wire always do. -/
def itemRTLC : MissionItem :=
  { seq := 1, command_type := some "rtl", latitude := some 5, longitude := some 6 }

set_option maxRecDepth 8000 in
unseal Rat.add Rat.mul Rat.inv Rat.sub in
/-- Witness for the amended C6: moving the third item relative to the last
waypoint uses the waypoint at (7, 8) directly before it. -/
theorem move_last_waypoint_amended_c6_witness :
    find_last_waypoint_coordinates [itemTK, itemWP2, itemWP3] [0, 1, 2] 2 =
      some (7, 8) ∧
    heapGet (moveItemRun specValidate specSummary calculate_absolute_coordinates
      [itemTK, itemWP2, itemWP3] [0, 1, 2] 3 none none (some (1000, "meters"))
      (some "north") (some "last_waypoint")).2.1 2 =
      relativeMutation itemWP3 (7 + 1000 / metersPerDegree) 8 :=
  ⟨by decide,
   ((move_last_waypoint_amended_c6 specValidate specSummary
      calculate_absolute_coordinates [itemTK, itemWP2, itemWP3] [0, 1, 2] 3 1000
      "meters" "north" (by decide) (by decide) (by decide)).1
      7 8 (7 + 1000 / metersPerDegree) 8 (by decide) (by decide)).1⟩

set_option maxRecDepth 8000 in
unseal Rat.add Rat.mul Rat.inv Rat.sub in
/-- Counterexample to C6 as stated: the nearest prior item with resolved
coordinates is the rtl at (5, 6), but the scan skips it because rtl is not
in the scanned command-type set, and the reference used is the takeoff at
(0, 0). -/
theorem move_last_waypoint_cex_c6 :
    (let r := moveItemRun specValidate specSummary calculate_absolute_coordinates
        [itemTK, itemRTLC, itemWP3] [0, 1, 2] 3 none none (some (1000, "meters"))
        (some "north") (some "last_waypoint")
     itemRTLC.latitude = some 5 ∧ itemRTLC.longitude = some 6 ∧
     calculate_absolute_coordinates 5 6 1000 "north" "meters" =
       .ok (5 + 1000 / metersPerDegree, 6) ∧
     (heapGet r.2.1 2).latitude = some (0 + 1000 / metersPerDegree) ∧
     (0 + 1000 / metersPerDegree : ℚ) ≠ 5 + 1000 / metersPerDegree) := by
  decide

/-! Claim C4 machinery. -/

theorem strHasPre_first (t s : String) (h : strHasPre t s) (ht : t.data ≠ []) :
    s.data.headI = t.data.headI := by
  unfold strHasPre at h
  cases hsd : s.data with
  | nil =>
    rw [hsd] at h
    simp at h
    exact absurd h ht
  | cons c l =>
    cases htd : t.data with
    | nil => exact absurd htd ht
    | cons d m =>
      rw [hsd, htd] at h
      simp [List.take_succ_cons] at h
      simp [h.1]

theorem err_not_moved (msg : String) (he : strHasPre "Error:" msg)
    (hm : strHasPre "Moved mission item" msg) : False := by
  have h1 := strHasPre_first _ _ he (by decide)
  have h2 := strHasPre_first _ _ hm (by decide)
  rw [h1] at h2
  exact absurd h2 (by decide)

theorem validateAfter_true_resolved (items : List MissionItem)
    (hv : (validateAfterAction specValidate items).1 = true) :
    ∀ i ∈ items, requiresPosition i.command_type = true →
      i.latitude.isSome = true ∧ i.longitude.isSome = true := by
  intro i hi hreq
  unfold validateAfterAction at hv
  dsimp only at hv
  by_cases hr : (specValidate items).1 = true
  · unfold specValidate at hr
    dsimp only at hr
    rw [List.isEmpty_iff] at hr
    rw [List.filterMap_eq_nil_iff] at hr
    have h2 := hr i hi
    rw [hreq] at h2
    simp at h2
    exact ⟨Option.isSome_iff_ne_none.mpr h2.1, Option.isSome_iff_ne_none.mpr h2.2⟩
  · exfalso
    have hfalse : (specValidate items).1 = false := by
      revert hr
      cases (specValidate items).1 <;> simp
    rw [hfalse] at hv
    simp at hv

/-! Claim C4. -/

/-- C4: whenever `move_item` resolves a target position (absolute
coordinates, MGRS, or relative distance+heading supplied) and the edit
commits (the response reports a successful move, which under the
spec-modelled validator requires geometry resolution), the committed item
stores exactly one geometry representation, resolved to absolute: latitude
and longitude are present while the MGRS, distance and reference-frame
fields are cleared. -/
theorem committed_geometry_c4
    (summary : List MissionItem → String)
    (calcAbs : ℚ → ℚ → ℚ → String → String → Except String (ℚ × ℚ))
    (heap : ItemHeap) (refs : List Nat) (seq : Int) (co : Option (ℚ × ℚ))
    (mg : Option String) (di : Option (ℚ × String)) (hd fr : Option String)
    (hgeom : co ≠ none ∨ mg ≠ none ∨ (di ≠ none ∧ hd ≠ none))
    (hsucc : strHasPre "Moved mission item"
      (moveItemRun specValidate summary calcAbs heap refs seq co mg di hd fr).1) :
    ((heapGet (moveItemRun specValidate summary calcAbs heap refs seq co mg di hd fr).2.1
       (refs.getD (seq - 1).toNat 0)).latitude.isSome = true) ∧
    ((heapGet (moveItemRun specValidate summary calcAbs heap refs seq co mg di hd fr).2.1
       (refs.getD (seq - 1).toNat 0)).longitude.isSome = true) ∧
    ((heapGet (moveItemRun specValidate summary calcAbs heap refs seq co mg di hd fr).2.1
       (refs.getD (seq - 1).toNat 0)).mgrs = none) ∧
    ((heapGet (moveItemRun specValidate summary calcAbs heap refs seq co mg di hd fr).2.1
       (refs.getD (seq - 1).toNat 0)).distance = none) ∧
    ((heapGet (moveItemRun specValidate summary calcAbs heap refs seq co mg di hd fr).2.1
       (refs.getD (seq - 1).toNat 0)).relative_reference_frame = none) := by
  unfold moveItemRun at hsucc ⊢
  dsimp only [unpack_measurement, unpack_coordinates] at hsucc ⊢
  split at hsucc
  · next hemp =>
    rw [if_pos hemp]
    dsimp only at hsucc
    exact absurd hsucc (by decide)
  · next hemp =>
    rw [if_neg hemp]
    split at hsucc
    · next hguard =>
      rw [if_pos hguard]
      dsimp only at hsucc
      exfalso
      have hhd := strHasPre_first _ _ hsucc (by decide)
      simp [String.data_append] at hhd
    · next hguard =>
      rw [if_neg hguard]
      split at hsucc
      · next msg hX heq =>
        exact absurd hsucc
          (fun hp => err_not_moved msg (moveStepCoords_inl _ _ _ _ _ _ _ _ heq) hp)
      · next h1 c1 heq1 =>
        split at hsucc
        · next msg hX heq =>
          exact absurd hsucc
            (fun hp => err_not_moved msg (moveStepMgrs_inl _ _ _ _ _ _ _ heq) hp)
        · next h2 c2 heq2 =>
          split at hsucc
          · next msg hX heq =>
            exact absurd hsucc
              (fun hp => err_not_moved msg
                (moveStepRelative_inl _ _ _ _ _ _ _ _ _ _ _ _ heq) hp)
          · next h3 c3 heq3 =>
            split at hsucc
            · next msg hX heq =>
              exact absurd hsucc
                (fun hp => err_not_moved msg
                  (moveStepHeadingOnly_inl _ _ _ _ _ _ _ _ heq) hp)
            · next h4 c4 heq4 =>
              split at hsucc
              · next hch =>
                rw [if_pos hch]
                dsimp only at hsucc
                exact absurd hsucc (by decide)
              · next hch =>
                rw [if_neg hch]
                split at hsucc
                · next hvb =>
                  rw [if_pos hvb]
                  dsimp only at hsucc
                  exfalso
                  have hhd := strHasPre_first _ _ hsucc (by decide)
                  simp [String.data_append] at hhd
                · next hvb =>
                  rw [if_neg hvb]
                  dsimp only
                  have hvalid : (validateAfterAction specValidate
                      (missionValue h4 refs)).1 = true := by
                    revert hvb
                    cases (validateAfterAction specValidate (missionValue h4 refs)).1 <;> simp
                  have hct1 : (heapGet h1 (refs.getD (seq - 1).toNat 0)).command_type
                      = (heapGet heap (refs.getD (seq - 1).toNat 0)).command_type := by
                    rcases moveStepCoords_inr _ _ _ _ _ _ _ _ heq1 with
                      ⟨he, _, _⟩ | ⟨la0, lo0, _, _, _, he, _⟩
                    · rw [he]
                    · rw [he, heapGet_heapSet]
                      split <;> rfl
                  have hct2 : (heapGet h2 (refs.getD (seq - 1).toNat 0)).command_type
                      = (heapGet h1 (refs.getD (seq - 1).toNat 0)).command_type := by
                    rcases moveStepMgrs_inr _ _ _ _ _ _ _ heq2 with
                      ⟨he, _, _⟩ | ⟨g0, _, _, he, _⟩
                    · rw [he]
                    · rw [he, heapGet_heapSet]
                      split <;> rfl
                  have hct3 : (heapGet h3 (refs.getD (seq - 1).toNat 0)).command_type
                      = (heapGet h2 (refs.getD (seq - 1).toNat 0)).command_type := by
                    rcases moveStepRelative_inr _ _ _ _ _ _ _ _ _ _ _ _ heq3 with
                      ⟨he, _, _⟩ | ⟨nl, nlo, _, he, _⟩
                    · rw [he]
                    · rw [he, heapGet_heapSet]
                      split <;> rfl
                  have hct4 : (heapGet h4 (refs.getD (seq - 1).toNat 0)).command_type
                      = (heapGet h3 (refs.getD (seq - 1).toNat 0)).command_type := by
                    rcases moveStepHeadingOnly_inr _ _ _ _ _ _ _ _ heq4 with
                      ⟨he, _⟩ | ⟨hv0, he⟩
                    · rw [he]
                    · rw [he, heapGet_heapSet]
                      split <;> rfl
                  have hsupCT : cmdSupportsPosition
                      ((heapGet heap (refs.getD (seq - 1).toNat 0)).command_type) = true := by
                    rcases hgeom with hco | hmg2 | ⟨hdi, hhd2⟩
                    · obtain ⟨⟨la0, lo0⟩, rfl⟩ := Option.ne_none_iff_exists'.mp hco
                      rcases moveStepCoords_inr _ _ _ _ _ _ _ _ heq1 with
                        ⟨_, _, hskip⟩ | ⟨_, _, _, _, hs, _, _⟩
                      · simp at hskip
                      · exact hs
                    · obtain ⟨g0, rfl⟩ := Option.ne_none_iff_exists'.mp hmg2
                      rcases moveStepMgrs_inr _ _ _ _ _ _ _ heq2 with
                        ⟨_, _, hskip⟩ | ⟨_, _, hs, _, _⟩
                      · simp at hskip
                      · exact hs
                    · obtain ⟨⟨dv0, du0⟩, rfl⟩ := Option.ne_none_iff_exists'.mp hdi
                      obtain ⟨hd0, rfl⟩ := Option.ne_none_iff_exists'.mp hhd2
                      rcases moveStepRelative_inr _ _ _ _ _ _ _ _ _ _ _ _ heq3 with
                        ⟨_, _, hskip⟩ | ⟨_, _, hs, _, _⟩
                      · simp at hskip
                      · exact hs
                  have hidx : (seq - 1).toNat < refs.length := by
                    simp only [Bool.or_eq_true, decide_eq_true_eq, not_or] at hguard
                    omega
                  have hreqF : requiresPosition
                      ((heapGet h4 (refs.getD (seq - 1).toNat 0)).command_type) = true := by
                    rw [hct4, hct3, hct2, hct1]
                    exact supports_requires _ hsupCT
                  have hres := validateAfter_true_resolved _ hvalid _
                    (mem_missionValue h4 refs (seq - 1).toNat hidx) hreqF
                  refine ⟨hres.1, hres.2, ?_⟩
                  rcases moveStepRelative_inr _ _ _ _ _ _ _ _ _ _ _ _ heq3 with
                    ⟨he3, hc3, hskip3⟩ | ⟨nl, nlo, hs3, he3, _⟩
                  · rcases moveStepMgrs_inr _ _ _ _ _ _ _ heq2 with
                      ⟨he2, hc2, hmgnone⟩ | ⟨g0, _, hs2, he2, _⟩
                    · rcases moveStepCoords_inr _ _ _ _ _ _ _ _ heq1 with
                        ⟨he1, hc1, hskip1⟩ | ⟨la0, lo0, _, _, hs1, he1, _⟩
                      · exfalso
                        rcases hgeom with hco | hmg2 | ⟨hdi, hhd2⟩
                        · obtain ⟨⟨la0, lo0⟩, rfl⟩ := Option.ne_none_iff_exists'.mp hco
                          simp at hskip1
                        · exact absurd hmgnone hmg2
                        · obtain ⟨⟨dv0, du0⟩, rfl⟩ := Option.ne_none_iff_exists'.mp hdi
                          obtain ⟨hd0, rfl⟩ := Option.ne_none_iff_exists'.mp hhd2
                          simp at hskip3
                      · have hg1 : heapGet h1 (refs.getD (seq - 1).toNat 0) =
                            coordsMutation (heapGet heap (refs.getD (seq - 1).toNat 0)) la0 lo0 := by
                          rw [he1]
                          exact heapGet_heapSet_self _ _ _
                            (ct_lt_length heap _ (supports_ne_none _ hsupCT))
                        rcases moveStepHeadingOnly_inr _ _ _ _ _ _ _ _ heq4 with
                          ⟨he4, _⟩ | ⟨hv0, he4⟩
                        · rw [he4, he3, he2, hg1]
                          exact ⟨rfl, rfl, rfl⟩
                        · have hg4 : heapGet h4 (refs.getD (seq - 1).toNat 0) =
                              headingMutation (heapGet h3 (refs.getD (seq - 1).toNat 0)) hv0 := by
                            rw [he4]
                            refine heapGet_heapSet_self _ _ _ (ct_lt_length h3 _ ?_)
                            rw [hct3, hct2, hct1]
                            exact supports_ne_none _ hsupCT
                          rw [hg4, he3, he2, hg1]
                          exact ⟨rfl, rfl, rfl⟩
                    · exfalso
                      have hg2 : heapGet h2 (refs.getD (seq - 1).toNat 0) =
                          mgrsMutation (heapGet h1 (refs.getD (seq - 1).toNat 0)) g0 := by
                        rw [he2]
                        refine heapGet_heapSet_self _ _ _ (ct_lt_length h1 _ ?_)
                        rw [hct1]
                        exact supports_ne_none _ hsupCT
                      have hlat := hres.1
                      rcases moveStepHeadingOnly_inr _ _ _ _ _ _ _ _ heq4 with
                        ⟨he4, _⟩ | ⟨hv0, he4⟩
                      · rw [he4, he3, hg2] at hlat
                        simp [mgrsMutation] at hlat
                      · have hg4 : heapGet h4 (refs.getD (seq - 1).toNat 0) =
                            headingMutation (heapGet h3 (refs.getD (seq - 1).toNat 0)) hv0 := by
                          rw [he4]
                          refine heapGet_heapSet_self _ _ _ (ct_lt_length h3 _ ?_)
                          rw [hct3, hct2, hct1]
                          exact supports_ne_none _ hsupCT
                        rw [hg4, he3, hg2] at hlat
                        simp [headingMutation, mgrsMutation] at hlat
                  · have hg3 : heapGet h3 (refs.getD (seq - 1).toNat 0) =
                        relativeMutation (heapGet h2 (refs.getD (seq - 1).toNat 0)) nl nlo := by
                      rw [he3]
                      refine heapGet_heapSet_self _ _ _ (ct_lt_length h2 _ ?_)
                      rw [hct2, hct1]
                      exact supports_ne_none _ hsupCT
                    rcases moveStepHeadingOnly_inr _ _ _ _ _ _ _ _ heq4 with
                      ⟨he4, _⟩ | ⟨hv0, he4⟩
                    · rw [he4, hg3]
                      exact ⟨rfl, rfl, rfl⟩
                    · have hg4 : heapGet h4 (refs.getD (seq - 1).toNat 0) =
                          headingMutation (heapGet h3 (refs.getD (seq - 1).toNat 0)) hv0 := by
                        rw [he4]
                        refine heapGet_heapSet_self _ _ _ (ct_lt_length h3 _ ?_)
                        rw [hct3, hct2, hct1]
                        exact supports_ne_none _ hsupCT
                      rw [hg4, hg3]
                      exact ⟨rfl, rfl, rfl⟩

set_option maxRecDepth 4000 in
unseal Rat.add Rat.mul Rat.inv Rat.sub in
/-- Witness for C4 at a concrete committed move. -/
theorem committed_geometry_c4_witness :
    ((some (3, 4) : Option (ℚ × ℚ)) ≠ none) ∧
    strHasPre "Moved mission item" (moveItemRun specValidate specSummary
      calculate_absolute_coordinates [itemTK, itemWP] [0, 1] 2 (some (3, 4)) none
      none none none).1 ∧
    (((heapGet (moveItemRun specValidate specSummary calculate_absolute_coordinates
        [itemTK, itemWP] [0, 1] 2 (some (3, 4)) none none none none).2.1
        1).latitude.isSome = true) ∧
     ((heapGet (moveItemRun specValidate specSummary calculate_absolute_coordinates
        [itemTK, itemWP] [0, 1] 2 (some (3, 4)) none none none none).2.1
        1).longitude.isSome = true) ∧
     ((heapGet (moveItemRun specValidate specSummary calculate_absolute_coordinates
        [itemTK, itemWP] [0, 1] 2 (some (3, 4)) none none none none).2.1
        1).mgrs = none) ∧
     ((heapGet (moveItemRun specValidate specSummary calculate_absolute_coordinates
        [itemTK, itemWP] [0, 1] 2 (some (3, 4)) none none none none).2.1
        1).distance = none) ∧
     ((heapGet (moveItemRun specValidate specSummary calculate_absolute_coordinates
        [itemTK, itemWP] [0, 1] 2 (some (3, 4)) none none none none).2.1
        1).relative_reference_frame = none)) :=
  ⟨by decide, by decide,
   committed_geometry_c4 specSummary calculate_absolute_coordinates
     [itemTK, itemWP] [0, 1] 2 (some (3, 4)) none none none none
     (Or.inl (by decide)) (by decide)⟩

end MavAgent
